import Mathlib

/-!
Verification development for the GloriaFood integration platform
(Cloudflare Worker, D1/SQLite store, KV cache).

Shallow embedding conventions:
* Each D1 table is a Lean list of row structures; `AUTOINCREMENT` row ids are
  modelled by per-table counters (starting at 1) for the tables whose rowid the
  code reads via `last_row_id` or compares against.
* SQL `INSERT` appends at the end of the list; `SELECT ... .first()` is
  `List.find?`; `UPDATE ... WHERE id = ?` maps over the list; `DELETE` filters.
* Timestamp columns (`created_at`, `updated_at`, `synced_at`) are not modelled:
  the pipelines never read them back.
* Monetary `REAL` values are modelled as `Int`: the pipelines only copy them
  from the payload into rows, never compute with them.
* `JSON.stringify`/`JSON.parse` round-trips (raw payload audit column, the
  serialized tag/allergen blobs, KV cache values) are modelled structurally:
  the stored value is the structured value itself.
* JavaScript truthiness (`x || y`, `x ? a : b`) is modelled by the explicit
  helpers below; `undefined`/missing fields are `Option.none`.
-/

/-- JavaScript truthiness on an optional number: undefined, null and 0 are falsy. -/
def natTruthy : Option Nat → Option Nat
  | some n => if n = 0 then none else some n
  | none => none

/-- JavaScript `s || null` on an optional string: undefined and the empty string become NULL. -/
def strOrNull : Option String → Option String
  | some s => if s = "" then none else some s
  | none => none

/-- JavaScript `s || d` on an optional string with a string default. -/
def strOrDefault (a : Option String) (d : String) : String :=
  match a with
  | some s => if s = "" then d else s
  | none => d

/-- JavaScript `a || b` on two optional strings; the second operand is kept as is. -/
def strOrElse (a b : Option String) : Option String :=
  match a with
  | some s => if s = "" then b else some s
  | none => b

/-- JavaScript `b ? 1 : 0` on an optional boolean (undefined is falsy). -/
def boolBit : Option Bool → Nat
  | some true => 1
  | _ => 0

/-- A required boolean stored as the SQLite integers 1/0. -/
def bit (b : Bool) : Nat := if b then 1 else 0

/-- JavaScript truthiness of an optional row id: undefined, null and 0 are falsy. -/
def idTruthy : Option Nat → Bool
  | some n => !(n == 0)
  | none => false

/-! ## Payload types (`src/types.ts`) -/

/-- Option attached to one order line item (types.ts `OrderItemOption`). -/
structure OrderItemOption where
  id : Nat
  name : String
  price : Int
  group_name : Option String
  quantity : Nat
  type : String
  type_id : Option Nat
  kitchen_internal_name : Option String
  deriving Repr, DecidableEq

/-- One order line item (types.ts `OrderItem`). -/
structure OrderItem where
  id : Nat
  name : String
  total_item_price : Int
  price : Int
  quantity : Nat
  instructions : Option String
  type : String
  type_id : Option Nat
  tax_rate : Option Int
  tax_value : Option Int
  tax_type : Option String
  parent_id : Option Nat
  item_discount : Option Int
  cart_discount : Option Int
  cart_discount_rate : Option Int
  kitchen_internal_name : Option String
  coupon : Option String
  options : Option (List OrderItemOption)
  deriving Repr, DecidableEq

/-- Payment information block (types.ts `PaymentInfo`). -/
structure PaymentInfo where
  payment_status : String
  payment_processor : Option String
  payment_method : Option String
  card_type : Option String
  deriving Repr, DecidableEq

/-- One entry of the tax breakdown list (types.ts `OrderTax`). -/
structure OrderTax where
  type : String
  value : Int
  rate : Int
  deriving Repr, DecidableEq

/-- Structured client address block (types.ts `AddressParts`). -/
structure AddressParts where
  street : Option String
  bloc : Option String
  floor : Option String
  apartment : Option String
  intercom : Option String
  more_address : Option String
  zipcode : Option String
  city : Option String
  full_address : Option String
  deriving Repr, DecidableEq

/-- Billing details block (types.ts `BillingDetails`). -/
structure BillingDetails where
  type : Option String
  company_name : Option String
  cui : Option String
  reg_com : Option String
  person_name : Option String
  person_type : Option String
  document_type : Option String
  document_number : Option String
  address : Option String
  city : Option String
  region : Option String
  sector : Option String
  country_code : Option String
  deriving Repr, DecidableEq

/-- One external order payload (types.ts `GloriaFoodOrder`). -/
structure GloriaFoodOrder where
  id : Nat
  status : String
  type : String
  source : Option String
  restaurant_key : String
  restaurant_id : Nat
  restaurant_name : String
  restaurant_timezone : Option String
  pos_system_id : Option Nat
  currency : String
  total_price : Int
  sub_total_price : Int
  tax_value : Int
  tax_type : String
  tax_name : Option String
  tax_list : Option (List OrderTax)
  coupons : Option (List String)
  instructions : Option String
  fulfill_at : String
  accepted_at : String
  for_later : Option Bool
  pin_skipped : Option Bool
  pickup_payment : Option String
  delivery_payment : Option String
  payment : Option PaymentInfo
  items : List OrderItem
  client_id : Option Nat
  user_id : Option Nat
  client_first_name : Option String
  client_last_name : Option String
  client_email : Option String
  client_phone : Option String
  client_address : Option String
  client_address_parts : Option AddressParts
  client_order_count : Option Nat
  client_marketing_consent : Option Bool
  latitude : Option String
  longitude : Option String
  delivery_zone_name : Option String
  outside_delivery_area : Option Bool
  billing_details : Option BillingDetails
  deriving Repr, DecidableEq

/-- A push or pull batch of orders (types.ts `GloriaFoodOrderResponse`). -/
structure GloriaFoodOrderResponse where
  count : Nat
  orders : List GloriaFoodOrder
  deriving Repr, DecidableEq

/-- Allergen entry (types.ts `Allergen`). -/
structure Allergen where
  id : Nat
  name : String
  deriving Repr, DecidableEq

/-- Nutritional value entry (types.ts `NutritionalValue`). -/
structure NutritionalValue where
  id : Nat
  value : String
  deriving Repr, DecidableEq

/-- Extra attributes of a menu item (types.ts `MenuItemExtras`). -/
structure MenuItemExtras where
  menu_item_order_types : Option (List String)
  menu_item_kitchen_internal_name : Option String
  menu_item_allergens_values : Option (List Allergen)
  menu_item_nutritional_values : Option (List NutritionalValue)
  deriving Repr, DecidableEq

/-- Extra attributes of a menu option (types.ts `MenuOption.extras`). -/
structure MenuOptionExtras where
  menu_option_kitchen_internal_name : Option String
  deriving Repr, DecidableEq

/-- One selectable option of an option group (types.ts `MenuOption`). -/
structure MenuOption where
  id : Nat
  name : String
  price : Int
  default : Bool
  extras : Option MenuOptionExtras
  deriving Repr, DecidableEq

/-- One option group of the menu snapshot (types.ts `MenuOptionGroup`). -/
structure MenuOptionGroup where
  id : Nat
  name : String
  required : Bool
  allow_quantity : Bool
  force_min : Nat
  force_max : Nat
  options : List MenuOption
  deriving Repr, DecidableEq

/-- One size of a menu item (types.ts `MenuItemSize`). -/
structure MenuItemSize where
  id : Nat
  name : String
  price : Int
  default : Bool
  groups : Option (List MenuOptionGroup)
  deriving Repr, DecidableEq

/-- One menu item (types.ts `MenuItem`). -/
structure MenuItem where
  id : Nat
  name : String
  description : Option String
  price : Int
  active : Bool
  tags : Option (List String)
  sizes : Option (List MenuItemSize)
  groups : Option (List MenuOptionGroup)
  extras : Option MenuItemExtras
  deriving Repr, DecidableEq

/-- One menu category (types.ts `MenuCategory`). -/
structure MenuCategory where
  id : Nat
  name : String
  description : Option String
  active : Bool
  items : List MenuItem
  groups : Option (List MenuOptionGroup)
  deriving Repr, DecidableEq

/-- The full remote menu snapshot (types.ts `GloriaFoodMenuResponse`). -/
structure GloriaFoodMenuResponse where
  id : Nat
  restaurant_id : Nat
  active : Bool
  currency : String
  categories : List MenuCategory
  deriving Repr, DecidableEq

/-! ## Relational rows (`schema/migrations.sql`) -/

/-- Row of the `orders` table. The `raw_payload` column stores the verbatim
original payload (`JSON.stringify(order)`), modelled structurally. -/
structure OrderRow where
  id : Nat
  gloriafood_id : Nat
  pos_system_id : Nat
  restaurant_id : Option Nat
  client_id : Option Nat
  status : String
  type : String
  source : Option String
  currency : String
  total_price : Int
  sub_total_price : Int
  tax_value : Int
  tax_type : String
  tax_name : Option String
  payment_method : Option String
  payment_status : String
  instructions : Option String
  fulfill_at : String
  accepted_at : String
  for_later : Nat
  pin_skipped : Nat
  delivery_fee : Int
  delivery_address : Option String
  delivery_latitude : Option String
  delivery_longitude : Option String
  delivery_zone : Option String
  outside_delivery_area : Nat
  tip_amount : Int
  raw_payload : GloriaFoodOrder
  deriving Repr, DecidableEq

/-- Row of the `clients` table. -/
structure ClientRow where
  id : Nat
  gloriafood_id : Nat
  first_name : Option String
  last_name : Option String
  email : Option String
  phone : Option String
  order_count : Nat
  marketing_consent : Nat
  deriving Repr, DecidableEq

/-- Row of the `restaurants` table. -/
structure RestaurantRow where
  id : Nat
  gloriafood_id : Nat
  restaurant_key : String
  name : String
  timezone : String
  currency : String
  deriving Repr, DecidableEq

/-- Row of the `client_addresses` table. -/
structure AddressRow where
  client_id : Nat
  full_address : Option String
  street : Option String
  city : Option String
  zipcode : Option String
  bloc : Option String
  floor : Option String
  apartment : Option String
  intercom : Option String
  latitude : Option String
  longitude : Option String
  delivery_zone : Option String
  deriving Repr, DecidableEq

/-- Row of the `order_items` table. -/
structure OrderItemRow where
  id : Nat
  order_id : Nat
  gloriafood_id : Nat
  name : String
  type : String
  type_id : Option Nat
  quantity : Nat
  price : Int
  total_price : Int
  tax_rate : Int
  tax_value : Int
  tax_type : Option String
  item_discount : Int
  cart_discount : Int
  cart_discount_rate : Int
  instructions : Option String
  kitchen_internal_name : Option String
  coupon : Option String
  deriving Repr, DecidableEq

/-- Row of the `order_item_options` table. -/
structure OrderItemOptionRow where
  order_item_id : Nat
  gloriafood_id : Nat
  name : String
  group_name : Option String
  type : String
  type_id : Option Nat
  quantity : Nat
  price : Int
  kitchen_internal_name : Option String
  deriving Repr, DecidableEq

/-- Row of the `order_coupons` table. -/
structure CouponRow where
  order_id : Nat
  coupon_code : String
  deriving Repr, DecidableEq

/-- Row of the `order_taxes` table. -/
structure TaxRow where
  order_id : Nat
  type : String
  rate : Int
  value : Int
  deriving Repr, DecidableEq

/-- Row of the `billing_details` table. -/
structure BillingRow where
  order_id : Nat
  type : Option String
  company_name : Option String
  cui : Option String
  reg_com : Option String
  person_name : Option String
  person_type : Option String
  document_type : Option String
  document_number : Option String
  address : Option String
  city : Option String
  region : Option String
  sector : Option String
  country_code : Option String
  deriving Repr, DecidableEq

/-- Row of the `menus` table. -/
structure MenuRow where
  id : Nat
  gloriafood_id : Nat
  restaurant_id : Nat
  currency : String
  active : Nat
  deriving Repr, DecidableEq

/-- Row of the `menu_categories` table. -/
structure CategoryRow where
  id : Nat
  menu_id : Nat
  gloriafood_id : Nat
  name : String
  description : Option String
  active : Nat
  sort_order : Nat
  deriving Repr, DecidableEq

/-- Row of the `menu_items` table. The serialized JSON blob columns
(`order_types`, `tags`, `allergens`, `nutritional_values`) are modelled
structurally. -/
structure ItemRow where
  id : Nat
  category_id : Nat
  gloriafood_id : Nat
  name : String
  description : Option String
  price : Int
  active : Nat
  sort_order : Nat
  kitchen_internal_name : Option String
  order_types : Option (List String)
  tags : Option (List String)
  allergens : Option (List Allergen)
  nutritional_values : Option (List NutritionalValue)
  deriving Repr, DecidableEq

/-- Row of the `menu_item_sizes` table. -/
structure SizeRow where
  id : Nat
  item_id : Nat
  gloriafood_id : Nat
  name : String
  price : Int
  is_default : Nat
  sort_order : Nat
  deriving Repr, DecidableEq

/-- Row of the `menu_option_groups` table. -/
structure OptionGroupRow where
  id : Nat
  gloriafood_id : Nat
  name : String
  required : Nat
  allow_quantity : Nat
  force_min : Nat
  force_max : Nat
  deriving Repr, DecidableEq

/-- Row of the `menu_item_option_groups` join table (item-or-size, option group). -/
structure AssocRow where
  item_id : Option Nat
  size_id : Option Nat
  option_group_id : Nat
  deriving Repr, DecidableEq

/-- Row of the `menu_options` table. -/
structure OptionRow where
  option_group_id : Nat
  gloriafood_id : Nat
  name : String
  price : Int
  is_default : Nat
  kitchen_internal_name : Option String
  sort_order : Nat
  deriving Repr, DecidableEq

/-- Structured payload stored in a `webhook_logs` row; `JSON.stringify` of the
logged object is modelled structurally, literal string payloads verbatim. -/
inductive LogPayload where
  | text (s : String)
  | menuStats (categories items sizes optionGroups options : Nat)
  | menuError (message : String)
  | orderBatch (count : Nat) (results : List (Nat × Nat × Bool))
  deriving Repr, DecidableEq

/-- Row of the `webhook_logs` table. -/
structure LogRow where
  event_type : String
  payload : LogPayload
  status : String
  error_message : Option String
  deriving Repr, DecidableEq

/-- The whole D1 database: one list per table, plus the AUTOINCREMENT counters
for the tables whose rowid the code reads back (`last_row_id`). Counters start
at 1, as SQLite rowids do. -/
structure DB where
  nextOrderId : Nat
  nextClientId : Nat
  nextRestaurantId : Nat
  nextOrderItemId : Nat
  nextMenuId : Nat
  nextCategoryId : Nat
  nextItemId : Nat
  nextSizeId : Nat
  nextOptionGroupId : Nat
  orders : List OrderRow
  clients : List ClientRow
  restaurants : List RestaurantRow
  client_addresses : List AddressRow
  order_items : List OrderItemRow
  order_item_options : List OrderItemOptionRow
  order_coupons : List CouponRow
  order_taxes : List TaxRow
  billing_details : List BillingRow
  menus : List MenuRow
  menu_categories : List CategoryRow
  menu_items : List ItemRow
  menu_item_sizes : List SizeRow
  menu_option_groups : List OptionGroupRow
  menu_item_option_groups : List AssocRow
  menu_options : List OptionRow
  webhook_logs : List LogRow
  deriving Repr, DecidableEq

/-- The empty database. -/
def emptyDB : DB :=
  { nextOrderId := 1
    nextClientId := 1
    nextRestaurantId := 1
    nextOrderItemId := 1
    nextMenuId := 1
    nextCategoryId := 1
    nextItemId := 1
    nextSizeId := 1
    nextOptionGroupId := 1
    orders := []
    clients := []
    restaurants := []
    client_addresses := []
    order_items := []
    order_item_options := []
    order_coupons := []
    order_taxes := []
    billing_details := []
    menus := []
    menu_categories := []
    menu_items := []
    menu_item_sizes := []
    menu_option_groups := []
    menu_item_option_groups := []
    menu_options := []
    webhook_logs := [] }

/-! ## KV cache and combined worker state -/

/-- One option group with its options as assembled by
`MenuService.getOptionGroupsForItem`. -/
structure BuiltGroup where
  group : OptionGroupRow
  options : List OptionRow
  deriving Repr, DecidableEq

/-- One item subtree as assembled by `MenuService.getFullMenu`: the item row
spread together with its parsed JSON blob columns (defaulting to empty lists),
its sizes and its option groups. -/
structure BuiltItem where
  item : ItemRow
  tags : List String
  order_types : List String
  allergens : List Allergen
  nutritional_values : List NutritionalValue
  sizes : List SizeRow
  groups : List BuiltGroup
  deriving Repr, DecidableEq

/-- One category subtree as assembled by `MenuService.getFullMenu`. -/
structure BuiltCategory where
  category : CategoryRow
  items : List BuiltItem
  deriving Repr, DecidableEq

/-- The store-derived full menu tree assembled by `MenuService.getFullMenu`. -/
structure BuiltMenu where
  menu : MenuRow
  categories : List BuiltCategory
  deriving Repr, DecidableEq

/-- Value cached under the `menu:full` KV key: either the raw remote snapshot
(stored by `syncMenu`) or the tree rebuilt from the stored rows (stored by
`getFullMenu` on a cache miss). Both are JSON strings in the worker; the JSON
round-trip is modelled structurally. -/
inductive MenuCacheValue where
  | snapshot (m : GloriaFoodMenuResponse)
  | built (m : BuiltMenu)
  deriving Repr, DecidableEq

/-- The KV namespace: the `menu:full` entry and a presence flag for the
`dashboard:stats` entry (whose cached content is irrelevant to the pipelines,
which only ever delete it). -/
structure KVCache where
  menuFull : Option MenuCacheValue
  hasDashboardStats : Bool
  deriving Repr, DecidableEq

/-- Combined worker state: the D1 database plus the KV cache. -/
structure AppState where
  db : DB
  cache : KVCache
  deriving Repr, DecidableEq

/-! ## OrdersService (`src/services/orders.ts`) -/

/-- The pos-system part of the dedup key: `order.pos_system_id || 0`. -/
def posKey (o : GloriaFoodOrder) : Nat :=
  (natTruthy o.pos_system_id).getD 0

/-- The dedup lookup
`SELECT id FROM orders WHERE gloriafood_id = ? AND pos_system_id = ?`. -/
def findOrderByDedup (db : DB) (gfId posId : Nat) : Option OrderRow :=
  db.orders.find? (fun r => r.gloriafood_id == gfId && r.pos_system_id == posId)

/-- The client external id within the payload: `order.client_id || order.user_id`,
with the subsequent `if (!clientGloriaFoodId) return null` guard. -/
def clientKey (o : GloriaFoodOrder) : Option Nat :=
  match natTruthy o.client_id with
  | some n => some n
  | none => natTruthy o.user_id

/-- The `UPDATE clients SET ... COALESCE(?, col) ... WHERE id = ?` statement
applied to one row: supplied fields overwrite, NULL-bound fields keep the
stored value; `order_count` and `marketing_consent` are always overwritten. -/
def applyClientUpdate (o : GloriaFoodOrder) (c : ClientRow) : ClientRow :=
  { c with
    first_name := match o.client_first_name with
      | some v => some v
      | none => c.first_name
    last_name := match o.client_last_name with
      | some v => some v
      | none => c.last_name
    email := match o.client_email with
      | some v => some v
      | none => c.email
    phone := match o.client_phone with
      | some v => some v
      | none => c.phone
    order_count := (natTruthy o.client_order_count).getD 0
    marketing_consent := boolBit o.client_marketing_consent }

/-- The `INSERT INTO clients ...` statement for a fresh client row. -/
def newClientRow (cid k : Nat) (o : GloriaFoodOrder) : ClientRow :=
  { id := cid
    gloriafood_id := k
    first_name := strOrNull o.client_first_name
    last_name := strOrNull o.client_last_name
    email := strOrNull o.client_email
    phone := strOrNull o.client_phone
    order_count := (natTruthy o.client_order_count).getD 1
    marketing_consent := boolBit o.client_marketing_consent }

/-- `OrdersService.saveClientAddress`: dedup by (client_id, full_address) — a
NULL full address never matches in SQL — then insert. -/
def saveClientAddress (db : DB) (clientId : Nat) (o : GloriaFoodOrder) : DB :=
  match o.client_address_parts with
  | none => db
  | some parts =>
    let fullA := strOrElse parts.full_address o.client_address
    let already := db.client_addresses.any (fun a =>
      a.client_id == clientId &&
        (match fullA, a.full_address with
         | some x, some y => x == y
         | _, _ => false))
    if already then db
    else
      { db with client_addresses := db.client_addresses ++
          [{ client_id := clientId
             full_address := fullA
             street := strOrNull parts.street
             city := strOrNull parts.city
             zipcode := strOrNull parts.zipcode
             bloc := strOrNull parts.bloc
             floor := strOrNull parts.floor
             apartment := strOrNull parts.apartment
             intercom := strOrNull parts.intercom
             latitude := strOrNull o.latitude
             longitude := strOrNull o.longitude
             delivery_zone := strOrNull o.delivery_zone_name }] }

/-- `OrdersService.getOrCreateClient`: find by gloriafood_id; update in place
when found, insert when not; save a delivery address in both branches. -/
def getOrCreateClient (db : DB) (o : GloriaFoodOrder) : Option Nat × DB :=
  match clientKey o with
  | none => (none, db)
  | some k =>
    match db.clients.find? (fun c => c.gloriafood_id == k) with
    | some existing =>
      let db := { db with clients := db.clients.map (fun c =>
        if c.id == existing.id then applyClientUpdate o c else c) }
      let db := if o.type == "delivery" && o.client_address_parts.isSome then
          saveClientAddress db existing.id o
        else db
      (some existing.id, db)
    | none =>
      let cid := db.nextClientId
      let db := { db with
        clients := db.clients ++ [newClientRow cid k o]
        nextClientId := cid + 1 }
      let db := if o.type == "delivery" && o.client_address_parts.isSome then
          saveClientAddress db cid o
        else db
      (some cid, db)

/-- `OrdersService.getOrCreateRestaurant`: find by restaurant_key, else insert. -/
def getOrCreateRestaurant (db : DB) (o : GloriaFoodOrder) : Nat × DB :=
  match db.restaurants.find? (fun r => r.restaurant_key == o.restaurant_key) with
  | some existing => (existing.id, db)
  | none =>
    let rid := db.nextRestaurantId
    (rid,
      { db with
        restaurants := db.restaurants ++
          [{ id := rid
             gloriafood_id := o.restaurant_id
             restaurant_key := o.restaurant_key
             name := o.restaurant_name
             timezone := strOrDefault (o.restaurant_timezone) "UTC"
             currency := o.currency }]
        nextRestaurantId := rid + 1 })

/-- The order row built by the `INSERT INTO orders ...` statement, including
the payment method / tip / delivery-fee derivation that precedes it. -/
def orderRowOf (o : GloriaFoodOrder) (restaurantId : Nat) (clientId : Option Nat)
    (oid : Nat) : OrderRow :=
  let paymentMethod := if o.type == "delivery" then o.delivery_payment else o.pickup_payment
  let tipAmount : Int := match o.items.find? (fun i => i.type == "tip") with
    | some it => it.total_item_price
    | none => 0
  let deliveryFee : Int := match o.items.find? (fun i => i.type == "delivery_fee") with
    | some it => it.total_item_price
    | none => 0
  { id := oid
    gloriafood_id := o.id
    pos_system_id := posKey o
    restaurant_id := some restaurantId
    client_id := clientId
    status := o.status
    type := o.type
    source := strOrNull o.source
    currency := o.currency
    total_price := o.total_price
    sub_total_price := o.sub_total_price
    tax_value := o.tax_value
    tax_type := o.tax_type
    tax_name := strOrNull o.tax_name
    payment_method := strOrNull paymentMethod
    payment_status := strOrDefault (o.payment.map (fun p => p.payment_status)) "pending"
    instructions := strOrNull o.instructions
    fulfill_at := o.fulfill_at
    accepted_at := o.accepted_at
    for_later := boolBit o.for_later
    pin_skipped := boolBit o.pin_skipped
    delivery_fee := deliveryFee
    delivery_address := strOrNull o.client_address
    delivery_latitude := strOrNull o.latitude
    delivery_longitude := strOrNull o.longitude
    delivery_zone := strOrNull o.delivery_zone_name
    outside_delivery_area := boolBit o.outside_delivery_area
    tip_amount := tipAmount
    raw_payload := o }

/-- Error message of a dedup-key UNIQUE violation raised by the store. -/
def uniqueViolationMsg : String :=
  "UNIQUE constraint failed: orders.gloriafood_id, orders.pos_system_id"

/-- The `INSERT INTO orders` statement as executed by the store: enforces
`UNIQUE(gloriafood_id, pos_system_id)` and yields `last_row_id` on success. -/
def insertOrderAttempt (db : DB) (row : OrderRow) : Except String (Nat × DB) :=
  if db.orders.any (fun r =>
      r.gloriafood_id == row.gloriafood_id && r.pos_system_id == row.pos_system_id) then
    .error uniqueViolationMsg
  else
    .ok (row.id, { db with orders := db.orders ++ [row], nextOrderId := db.nextOrderId + 1 })

/-- The `INSERT INTO order_item_options ...` loop for one line item. -/
def insertItemOptions (db : DB) (itemId : Nat) (options : List OrderItemOption) : DB :=
  { db with order_item_options := db.order_item_options ++ options.map (fun option =>
      { order_item_id := itemId
        gloriafood_id := option.id
        name := option.name
        group_name := strOrNull option.group_name
        type := option.type
        type_id := natTruthy option.type_id
        quantity := option.quantity
        price := option.price
        kitchen_internal_name := strOrNull option.kitchen_internal_name }) }

/-- The row built by the `INSERT INTO order_items ...` statement; `|| 0`
defaults on the optional numeric columns, `|| null` on the optional strings. -/
def orderItemRowOf (orderId itemId : Nat) (item : OrderItem) : OrderItemRow :=
  { id := itemId
    order_id := orderId
    gloriafood_id := item.id
    name := item.name
    type := item.type
    type_id := natTruthy item.type_id
    quantity := item.quantity
    price := item.price
    total_price := item.total_item_price
    tax_rate := (item.tax_rate).getD 0
    tax_value := (item.tax_value).getD 0
    tax_type := strOrNull item.tax_type
    item_discount := (item.item_discount).getD 0
    cart_discount := (item.cart_discount).getD 0
    cart_discount_rate := (item.cart_discount_rate).getD 0
    instructions := strOrNull item.instructions
    kitchen_internal_name := strOrNull item.kitchen_internal_name
    coupon := strOrNull item.coupon }

/-- `OrdersService.insertOrderItems`: insert each line item, then its options
(`if (item.options && item.options.length > 0)`). -/
def insertOrderItems (db : DB) (orderId : Nat) : List OrderItem → DB
  | [] => db
  | item :: rest =>
    let itemId := db.nextOrderItemId
    let db := { db with
      order_items := db.order_items ++ [orderItemRowOf orderId itemId item]
      nextOrderItemId := itemId + 1 }
    let db := match item.options with
      | some options => if options.length > 0 then insertItemOptions db itemId options else db
      | none => db
    insertOrderItems db orderId rest

/-- The coupon insertion loop of `processOrder`
(`if (order.coupons && order.coupons.length > 0)`). -/
def insertCoupons (db : DB) (orderId : Nat) (coupons : Option (List String)) : DB :=
  match coupons with
  | some cs =>
    if cs.length > 0 then
      { db with order_coupons := db.order_coupons ++ cs.map (fun coupon =>
          { order_id := orderId, coupon_code := coupon }) }
    else db
  | none => db

/-- The tax insertion loop of `processOrder` (`if (order.tax_list)`). -/
def insertTaxes (db : DB) (orderId : Nat) (taxes : Option (List OrderTax)) : DB :=
  match taxes with
  | some ts =>
    { db with order_taxes := db.order_taxes ++ ts.map (fun tax =>
        { order_id := orderId, type := tax.type, rate := tax.rate, value := tax.value }) }
  | none => db

/-- `OrdersService.insertBillingDetails`. -/
def insertBillingDetails (db : DB) (orderId : Nat) (billing : Option BillingDetails) : DB :=
  match billing with
  | none => db
  | some b =>
    { db with billing_details := db.billing_details ++
        [{ order_id := orderId
           type := strOrNull b.type
           company_name := strOrNull b.company_name
           cui := strOrNull b.cui
           reg_com := strOrNull b.reg_com
           person_name := strOrNull b.person_name
           person_type := strOrNull b.person_type
           document_type := strOrNull b.document_type
           document_number := strOrNull b.document_number
           address := strOrNull b.address
           city := strOrNull b.city
           region := strOrNull b.region
           sector := strOrNull b.sector
           country_code := strOrNull b.country_code }] }

/-- Body of `OrdersService.processOrder` after the dedup check missed: client
and restaurant resolution, the order insert (which enforces the dedup-key
UNIQUE constraint), the item/coupon/tax/billing fan-out and the dashboard
cache invalidation. Each statement commits individually (there is no
transaction), so an error carries the state written so far. -/
def processOrderBody (st : AppState) (o : GloriaFoodOrder) :
    Except String (Nat × Bool) × AppState :=
  let clientId := (getOrCreateClient st.db o).1
  let db1 := (getOrCreateClient st.db o).2
  let restaurantId := (getOrCreateRestaurant db1 o).1
  let db2 := (getOrCreateRestaurant db1 o).2
  match insertOrderAttempt db2 (orderRowOf o restaurantId clientId db2.nextOrderId) with
  | .error e => (.error e, { st with db := db2 })
  | .ok (orderId, db3) =>
    let db4 := insertOrderItems db3 orderId o.items
    let db5 := insertCoupons db4 orderId o.coupons
    let db6 := insertTaxes db5 orderId o.tax_list
    let db7 := insertBillingDetails db6 orderId o.billing_details
    (.ok (orderId, true),
      { db := db7, cache := { st.cache with hasDashboardStats := false } })

/-- `OrdersService.processOrder`: dedup check, then the full insert fan-out. -/
def processOrder (st : AppState) (o : GloriaFoodOrder) :
    Except String (Nat × Bool) × AppState :=
  match findOrderByDedup st.db o.id (posKey o) with
  | some existing => (.ok (existing.id, false), st)
  | none => processOrderBody st o

/-- Interleaving of two concurrent `processOrder` invocations with equal dedup
keys in which invocation B runs its dedup SELECT before invocation A commits
its INSERT (both SELECTs see no existing row), A then runs to completion, and
B resumes with its own insert fan-out against the store A has written.
Returns the outcome of B, the race loser. `processOrder` contains no handler
for the UNIQUE-constraint violation, so the store error propagates out of B. -/
def processOrderRaceLoser (st : AppState) (a b : GloriaFoodOrder) :
    Except String (Nat × Bool) × AppState :=
  match findOrderByDedup st.db b.id (posKey b) with
  | some existing => (.ok (existing.id, false), (processOrder st a).2)
  | none => processOrderBody (processOrder st a).2 b

/-- Execution of `processOrder` in which the first `order_items` INSERT fails
(a mid-pipeline persistence failure): the dedup check missed, client and
restaurant resolution and the `orders` INSERT have each already committed
individually — there is no transaction and no compensating rollback in
`processOrder` — so the state they wrote stays visible while the error
propagates to the caller. Returns that state. -/
def processOrderItemWriteFails (st : AppState) (o : GloriaFoodOrder) : AppState :=
  match findOrderByDedup st.db o.id (posKey o) with
  | some _ => st
  | none =>
    let clientId := (getOrCreateClient st.db o).1
    let db1 := (getOrCreateClient st.db o).2
    let restaurantId := (getOrCreateRestaurant db1 o).1
    let db2 := (getOrCreateRestaurant db1 o).2
    match insertOrderAttempt db2 (orderRowOf o restaurantId clientId db2.nextOrderId) with
    | .error _ => { st with db := db2 }
    | .ok (_, db3) => { st with db := db3 }

/-! ## MenuService (`src/services/menu.ts`) -/

/-- Event type string of menu sync log rows. -/
def evMenuSync : String := "menu_sync"

/-- Event type string of webhook order log rows. -/
def evOrderReceived : String := "order_received"

/-- Log status string for successes. -/
def stSuccess : String := "success"

/-- Log status string for errors. -/
def stError : String := "error"

/-- Response body error of a rejected webhook delivery. -/
def msgUnauthorized : String := "Unauthorized"

/-- Error message logged for a rejected webhook delivery. -/
def errInvalidMasterKey : String := "Invalid master key"

/-- Payload string logged for a rejected webhook delivery. -/
def payloadUnauthorized : String := "unauthorized"

/-- Payload string logged when processing a webhook batch throws. -/
def payloadError : String := "error"

/-- Success message of `syncMenu`. -/
def msgMenuSynced : String := "Menú sincronizado correctamente"

/-- `MenuService.logEvent`: append one `webhook_logs` row
(`errorMessage || null` on the optional message). -/
def logEvent (db : DB) (eventType : String) (payload : LogPayload) (status : String)
    (errorMessage : Option String) : DB :=
  { db with webhook_logs := db.webhook_logs ++
      [{ event_type := eventType
         payload := payload
         status := status
         error_message := strOrNull errorMessage }] }

/-- Counters accumulated by a menu sync (`stats` in `syncMenu`). -/
structure Stats where
  categories : Nat
  items : Nat
  sizes : Nat
  optionGroups : Nat
  options : Nat
  deriving Repr, DecidableEq

/-- The all-zero initial stats of one sync. -/
def Stats.zero : Stats :=
  { categories := 0, items := 0, sizes := 0, optionGroups := 0, options := 0 }

/-- `MenuService.getOrCreateMenu`: find by gloriafood_id, update
currency/active in place when found, insert otherwise. -/
def getOrCreateMenu (db : DB) (menuData : GloriaFoodMenuResponse) : Nat × DB :=
  match db.menus.find? (fun m => m.gloriafood_id == menuData.id) with
  | some existing =>
    (existing.id,
     { db with menus := db.menus.map (fun m =>
         if m.id == existing.id then
           { m with currency := menuData.currency, active := bit menuData.active }
         else m) })
  | none =>
    let mid := db.nextMenuId
    (mid,
     { db with
       menus := db.menus ++
         [{ id := mid
            gloriafood_id := menuData.id
            restaurant_id := menuData.restaurant_id
            currency := menuData.currency
            active := bit menuData.active }]
       nextMenuId := mid + 1 })

/-- `DELETE FROM menu_item_sizes WHERE item_id = ?`, with the
`ON DELETE CASCADE` of `menu_item_option_groups.size_id`. -/
def deleteSizesOfItem (db : DB) (itemId : Nat) : DB :=
  let goneSizeIds := (db.menu_item_sizes.filter (fun s => s.item_id == itemId)).map
    (fun s => s.id)
  { db with
    menu_item_sizes := db.menu_item_sizes.filter (fun s => !(s.item_id == itemId))
    menu_item_option_groups := db.menu_item_option_groups.filter (fun a =>
      !(match a.size_id with
        | some sid => goneSizeIds.contains sid
        | none => false)) }

/-- `DELETE FROM menu_item_option_groups WHERE item_id = ?`; a NULL `item_id`
never matches an SQL equality. -/
def deleteAssocsOfItem (db : DB) (itemId : Nat) : DB :=
  { db with menu_item_option_groups := db.menu_item_option_groups.filter (fun a =>
      !(match a.item_id with
        | some iid => iid == itemId
        | none => false)) }

/-- `DELETE FROM menu_items WHERE category_id = ?` with its cascades into
`menu_item_sizes` and `menu_item_option_groups`. -/
def deleteItemsOfCategory (db : DB) (categoryId : Nat) : DB :=
  let goneItemIds := (db.menu_items.filter (fun i => i.category_id == categoryId)).map
    (fun i => i.id)
  let goneSizeIds := (db.menu_item_sizes.filter (fun s => goneItemIds.contains s.item_id)).map
    (fun s => s.id)
  { db with
    menu_items := db.menu_items.filter (fun i => !(i.category_id == categoryId))
    menu_item_sizes := db.menu_item_sizes.filter (fun s => !(goneItemIds.contains s.item_id))
    menu_item_option_groups := db.menu_item_option_groups.filter (fun a =>
      !((match a.item_id with
         | some iid => goneItemIds.contains iid
         | none => false) ||
        (match a.size_id with
         | some sid => goneSizeIds.contains sid
         | none => false))) }

/-- `DELETE FROM menu_categories WHERE menu_id = ?` with its full cascade into
items, sizes and association rows. -/
def deleteCategoriesOfMenu (db : DB) (menuId : Nat) : DB :=
  let goneCatIds := (db.menu_categories.filter (fun c => c.menu_id == menuId)).map
    (fun c => c.id)
  let goneItemIds := (db.menu_items.filter (fun i => goneCatIds.contains i.category_id)).map
    (fun i => i.id)
  let goneSizeIds := (db.menu_item_sizes.filter (fun s => goneItemIds.contains s.item_id)).map
    (fun s => s.id)
  { db with
    menu_categories := db.menu_categories.filter (fun c => !(c.menu_id == menuId))
    menu_items := db.menu_items.filter (fun i => !(goneCatIds.contains i.category_id))
    menu_item_sizes := db.menu_item_sizes.filter (fun s => !(goneItemIds.contains s.item_id))
    menu_item_option_groups := db.menu_item_option_groups.filter (fun a =>
      !((match a.item_id with
         | some iid => goneItemIds.contains iid
         | none => false) ||
        (match a.size_id with
         | some sid => goneSizeIds.contains sid
         | none => false))) }

/-- `MenuService.clearMenuData`: per category of the menu, per item of the
category, delete the sizes of the item and the item-scoped association rows;
then the items of each category; finally the categories of the menu. Never
touches `menu_option_groups` or `menu_options`. -/
def clearMenuData (db : DB) (menuId : Nat) : DB :=
  let cats := db.menu_categories.filter (fun c => c.menu_id == menuId)
  let db := cats.foldl (fun db cat =>
    let items := db.menu_items.filter (fun i => i.category_id == cat.id)
    let db := items.foldl (fun db item =>
      deleteAssocsOfItem (deleteSizesOfItem db item.id) item.id) db
    deleteItemsOfCategory db cat.id) db
  deleteCategoriesOfMenu db menuId

/-- The `INSERT INTO menu_options ...` loop run when an option group was newly
created (`optionSortOrder++` threading). -/
def insertNewGroupOptions (groupId : Nat) :
    List MenuOption → Nat → DB × Stats → DB × Stats
  | [], _, acc => acc
  | option :: rest, sortOrder, (db, stats) =>
    let db := { db with menu_options := db.menu_options ++
      [{ option_group_id := groupId
         gloriafood_id := option.id
         name := option.name
         price := option.price
         is_default := bit option.default
         kitchen_internal_name :=
           strOrNull (option.extras.bind (fun e => e.menu_option_kitchen_internal_name))
         sort_order := sortOrder }] }
    insertNewGroupOptions groupId rest (sortOrder + 1)
      (db, { stats with options := stats.options + 1 })

/-- `MenuService.processOptionGroup`: find the group by external id; update its
mutable fields in place when present, insert it when absent; create the
association row when an item or size id was passed (`if (itemId || sizeId)`);
insert the options of the group only when the group was newly created. -/
def processOptionGroup (group : MenuOptionGroup) (itemId sizeId : Option Nat)
    (db : DB) (stats : Stats) : DB × Stats :=
  let existing := db.menu_option_groups.find? (fun g => g.gloriafood_id == group.id)
  let step : Nat × DB × Stats := match existing with
    | some e =>
      (e.id,
       { db with menu_option_groups := db.menu_option_groups.map (fun g =>
           if g.id == e.id then
             { g with
               name := group.name
               required := bit group.required
               allow_quantity := bit group.allow_quantity
               force_min := group.force_min
               force_max := group.force_max }
           else g) },
       stats)
    | none =>
      let gid := db.nextOptionGroupId
      (gid,
       { db with
         menu_option_groups := db.menu_option_groups ++
           [{ id := gid
              gloriafood_id := group.id
              name := group.name
              required := bit group.required
              allow_quantity := bit group.allow_quantity
              force_min := group.force_min
              force_max := group.force_max }]
         nextOptionGroupId := gid + 1 },
       { stats with optionGroups := stats.optionGroups + 1 })
  let groupId := step.1
  let db := step.2.1
  let stats := step.2.2
  let db := if idTruthy itemId || idTruthy sizeId then
      { db with menu_item_option_groups := db.menu_item_option_groups ++
          [{ item_id := itemId, size_id := sizeId, option_group_id := groupId }] }
    else db
  match existing with
  | some _ => (db, stats)
  | none => insertNewGroupOptions groupId group.options 0 (db, stats)

/-- An option-group loop (`for (const group of ...groups)`) with a fixed
item-or-size owner. -/
def processGroups (itemId sizeId : Option Nat) :
    List MenuOptionGroup → DB × Stats → DB × Stats
  | [], acc => acc
  | group :: rest, (db, stats) =>
    processGroups itemId sizeId rest (processOptionGroup group itemId sizeId db stats)

/-- `MenuService.processSize`: insert the size row, then process its option
groups with the new size id as owner. -/
def processSize (itemId : Nat) (size : MenuItemSize) (sortOrder : Nat)
    (db : DB) (stats : Stats) : DB × Stats :=
  let sizeId := db.nextSizeId
  let db := { db with
    menu_item_sizes := db.menu_item_sizes ++
      [{ id := sizeId
         item_id := itemId
         gloriafood_id := size.id
         name := size.name
         price := size.price
         is_default := bit size.default
         sort_order := sortOrder }]
    nextSizeId := sizeId + 1 }
  let stats := { stats with sizes := stats.sizes + 1 }
  match size.groups with
  | some groups => processGroups none (some sizeId) groups (db, stats)
  | none => (db, stats)

/-- The size loop of `processItem` (`sizeSortOrder++` threading). -/
def processSizes (itemId : Nat) : List MenuItemSize → Nat → DB × Stats → DB × Stats
  | [], _, acc => acc
  | size :: rest, sortOrder, (db, stats) =>
    processSizes itemId rest (sortOrder + 1) (processSize itemId size sortOrder db stats)

/-- `MenuService.processItem`: insert the item row (serializing the blob
columns), then its sizes, then its option groups with the new item id. -/
def processItem (categoryId : Nat) (item : MenuItem) (sortOrder : Nat)
    (db : DB) (stats : Stats) : DB × Stats :=
  let extras := item.extras.getD
    { menu_item_order_types := none
      menu_item_kitchen_internal_name := none
      menu_item_allergens_values := none
      menu_item_nutritional_values := none }
  let itemId := db.nextItemId
  let db := { db with
    menu_items := db.menu_items ++
      [{ id := itemId
         category_id := categoryId
         gloriafood_id := item.id
         name := item.name
         description := strOrNull item.description
         price := item.price
         active := bit item.active
         sort_order := sortOrder
         kitchen_internal_name := strOrNull extras.menu_item_kitchen_internal_name
         order_types := extras.menu_item_order_types
         tags := item.tags
         allergens := extras.menu_item_allergens_values
         nutritional_values := extras.menu_item_nutritional_values }]
    nextItemId := itemId + 1 }
  let stats := { stats with items := stats.items + 1 }
  let acc := match item.sizes with
    | some sizes => processSizes itemId sizes 0 (db, stats)
    | none => (db, stats)
  match item.groups with
  | some groups => processGroups (some itemId) none groups acc
  | none => acc

/-- The item loop of `processCategory` (`itemSortOrder++` threading). -/
def processItems (categoryId : Nat) : List MenuItem → Nat → DB × Stats → DB × Stats
  | [], _, acc => acc
  | item :: rest, sortOrder, (db, stats) =>
    processItems categoryId rest (sortOrder + 1) (processItem categoryId item sortOrder db stats)

/-- `MenuService.processCategory`: insert the category row with the passed
sort order, then its items, then any category-level option groups with no
item/size owner. -/
def processCategory (menuId : Nat) (category : MenuCategory) (sortOrder : Nat)
    (db : DB) (stats : Stats) : DB × Stats :=
  let categoryId := db.nextCategoryId
  let db := { db with
    menu_categories := db.menu_categories ++
      [{ id := categoryId
         menu_id := menuId
         gloriafood_id := category.id
         name := category.name
         description := strOrNull category.description
         active := bit category.active
         sort_order := sortOrder }]
    nextCategoryId := categoryId + 1 }
  let stats := { stats with categories := stats.categories + 1 }
  let acc := processItems categoryId category.items 0 (db, stats)
  match category.groups with
  | some groups => processGroups none none groups acc
  | none => acc

/-- The category loop of `syncMenu`. The call site
`this.processCategory(menuId, category, stats)` passes no sort-order argument,
so every category is processed with the declared default `sortOrder = 0`. -/
def processCategories (menuId : Nat) : List MenuCategory → DB × Stats → DB × Stats
  | [], acc => acc
  | category :: rest, (db, stats) =>
    processCategories menuId rest (processCategory menuId category 0 db stats)

/-- Result value of `MenuService.syncMenu`. -/
structure SyncResult where
  success : Bool
  message : String
  stats : Stats
  deriving Repr, DecidableEq

/-- `MenuService.syncMenu` on a successfully fetched snapshot: find-or-create
the menu row, clear the stored subtree, rebuild it from the snapshot, stamp
the sync timestamp (timestamps are not modelled), store the fetched snapshot
itself under the `menu:full` cache key and log a success event. -/
def syncMenu (st : AppState) (menuData : GloriaFoodMenuResponse) : SyncResult × AppState :=
  let menuId := (getOrCreateMenu st.db menuData).1
  let db1 := (getOrCreateMenu st.db menuData).2
  let db2 := clearMenuData db1 menuId
  let db3 := (processCategories menuId menuData.categories (db2, Stats.zero)).1
  let stats := (processCategories menuId menuData.categories (db2, Stats.zero)).2
  let cache := { st.cache with menuFull := some (MenuCacheValue.snapshot menuData) }
  let db4 := logEvent db3 evMenuSync
    (LogPayload.menuStats stats.categories stats.items stats.sizes stats.optionGroups stats.options)
    stSuccess none
  ({ success := true, message := msgMenuSynced, stats := stats },
   { db := db4, cache := cache })

/-- Execution of `syncMenu` in which the first category INSERT of the rebuild
fails (a persistence failure right after the clear phase). The menu
find-or-create and every DELETE of `clearMenuData` have already committed
individually — the statements are not wrapped in a transaction and no shadow
tree is built — then the catch block records an error event carrying the
cause and rethrows. Returns the state those committed statements left behind. -/
def syncMenuFirstInsertFails (st : AppState) (menuData : GloriaFoodMenuResponse)
    (cause : String) : AppState :=
  let menuId := (getOrCreateMenu st.db menuData).1
  let db1 := (getOrCreateMenu st.db menuData).2
  let db2 := clearMenuData db1 menuId
  let db3 := logEvent db2 evMenuSync (LogPayload.menuError cause) stError (some cause)
  { st with db := db3 }

/-- `ORDER BY sort_order` on rows with a sort-order key. SQLite specifies no
order among equal keys; a stable insertion sort is one valid refinement. -/
def orderBySortOrder (key : α → Nat) (l : List α) : List α :=
  l.insertionSort (fun a b => key a ≤ key b)

/-- `MenuService.getOptionGroupsForItem`: the inner join of
`menu_option_groups` with the item-owned association rows, each group carrying
its options ordered by sort order. -/
def getOptionGroupsForItem (db : DB) (itemId : Nat) : List BuiltGroup :=
  let relations := db.menu_item_option_groups.filter (fun a =>
    match a.item_id with
    | some iid => iid == itemId
    | none => false)
  (relations.flatMap (fun a =>
    db.menu_option_groups.filter (fun og => og.id == a.option_group_id))).map
    (fun group =>
      { group := group
        options := orderBySortOrder (fun o => o.sort_order)
          (db.menu_options.filter (fun o => o.option_group_id == group.id)) })

/-- The item subtree assembled by `getFullMenu` for one stored item row. -/
def buildItemTree (db : DB) (item : ItemRow) : BuiltItem :=
  { item := item
    tags := item.tags.getD []
    order_types := item.order_types.getD []
    allergens := item.allergens.getD []
    nutritional_values := item.nutritional_values.getD []
    sizes := orderBySortOrder (fun s => s.sort_order)
      (db.menu_item_sizes.filter (fun s => s.item_id == item.id))
    groups := getOptionGroupsForItem db item.id }

/-- The full tree `getFullMenu` assembles from the stored rows on a cache
miss. -/
def buildFullMenu (db : DB) (menu : MenuRow) : BuiltMenu :=
  { menu := menu
    categories := (orderBySortOrder (fun c => c.sort_order)
        (db.menu_categories.filter (fun c => c.menu_id == menu.id))).map (fun cat =>
      { category := cat
        items := (orderBySortOrder (fun i => i.sort_order)
            (db.menu_items.filter (fun i => i.category_id == cat.id))).map
          (buildItemTree db) }) }

/-- `MenuService.getFullMenu`: return the cached `menu:full` value on a hit
(parsing the cached JSON, a structural identity here) without touching the
store; on a miss read the first menu row (`SELECT * FROM menus LIMIT 1`),
assemble the tree from the stored rows, cache it and return it. -/
def getFullMenu (st : AppState) : Option MenuCacheValue × AppState :=
  match st.cache.menuFull with
  | some cached => (some cached, st)
  | none =>
    match st.db.menus.head? with
    | none => (none, st)
    | some menu =>
      let fullMenu := MenuCacheValue.built (buildFullMenu st.db menu)
      (some fullMenu, { st with cache := { st.cache with menuFull := some fullMenu } })

/-! ## IngestionGateway (`src/index.ts`, `src/services/gloriafood-client.ts`) -/

/-- `GloriaFoodClient.validateWebhookRequest`: reject a missing or empty header
or configured key, otherwise compare for exact equality. -/
def validateWebhookRequest (authHeader : Option String) (masterKey : String) : Bool :=
  match authHeader with
  | none => false
  | some h => if h == "" || masterKey == "" then false else h == masterKey

/-- The per-order loop of the `/webhook/orders` handler, collecting
`(gloriafood_id, internal_id, is_new)` triples; an error thrown by
`processOrder` aborts the loop and propagates to the handler catch, keeping
the state written so far. -/
def processBatch (st : AppState) :
    List GloriaFoodOrder → Except String (List (Nat × Nat × Bool)) × AppState
  | [] => (.ok [], st)
  | o :: rest =>
    match processOrder st o with
    | (.ok (oid, isNew), st1) =>
      match processBatch st1 rest with
      | (.ok results, st2) => (.ok ((o.id, oid, isNew) :: results), st2)
      | (.error e, st2) => (.error e, st2)
    | (.error e, st1) => (.error e, st1)

/-- HTTP-level response of the webhook route. -/
structure WebhookResponse where
  httpStatus : Nat
  success : Bool
  error : Option String
  results : List (Nat × Nat × Bool)
  deriving Repr, DecidableEq

/-- The `POST /webhook/orders` route: validate the shared master key; on
failure insert one failed-attempt log row and answer 401 with no other write;
otherwise process the batch and log the outcome. -/
def handleWebhookOrders (authHeader : Option String) (masterKey : String)
    (payload : GloriaFoodOrderResponse) (st : AppState) : WebhookResponse × AppState :=
  if !(validateWebhookRequest authHeader masterKey) then
    ({ httpStatus := 401, success := false, error := some msgUnauthorized, results := [] },
     { st with db := (logEvent st.db evOrderReceived (LogPayload.text payloadUnauthorized)
         stError (some errInvalidMasterKey)) })
  else
    match processBatch st payload.orders with
    | (.ok results, st1) =>
      ({ httpStatus := 200, success := true, error := none, results := results },
       { st1 with db := (logEvent st1.db evOrderReceived
           (LogPayload.orderBatch payload.count results) stSuccess none) })
    | (.error e, st1) =>
      ({ httpStatus := 500, success := false, error := some e, results := [] },
       { st1 with db := (logEvent st1.db evOrderReceived (LogPayload.text payloadError)
           stError (some e)) })

/-! ## Concrete instances -/

/-- The empty KV cache. -/
def emptyCache : KVCache := { menuFull := none, hasDashboardStats := false }

/-- The empty worker state. -/
def emptyState : AppState := { db := emptyDB, cache := emptyCache }

/-- A one-line-item payload item. -/
def exItem : OrderItem :=
  { id := 1
    name := "Burger"
    total_item_price := 12
    price := 12
    quantity := 1
    instructions := none
    type := "item"
    type_id := none
    tax_rate := none
    tax_value := none
    tax_type := none
    parent_id := none
    item_discount := none
    cart_discount := none
    cart_discount_rate := none
    kitchen_internal_name := none
    coupon := none
    options := none }

/-- A minimal pickup order payload (external id 555, no pos-system id). -/
def exOrder : GloriaFoodOrder :=
  { id := 555
    status := "accepted"
    type := "pickup"
    source := none
    restaurant_key := "rk1"
    restaurant_id := 77
    restaurant_name := "Resto"
    restaurant_timezone := none
    pos_system_id := none
    currency := "USD"
    total_price := 12
    sub_total_price := 12
    tax_value := 0
    tax_type := "NET"
    tax_name := none
    tax_list := none
    coupons := none
    instructions := none
    fulfill_at := "2025-01-01 12:00"
    accepted_at := "2025-01-01 11:00"
    for_later := none
    pin_skipped := none
    pickup_payment := none
    delivery_payment := none
    payment := none
    items := [exItem]
    client_id := none
    user_id := none
    client_first_name := none
    client_last_name := none
    client_email := none
    client_phone := none
    client_address := none
    client_address_parts := none
    client_order_count := none
    client_marketing_consent := none
    latitude := none
    longitude := none
    delivery_zone_name := none
    outside_delivery_area := none
    billing_details := none }

/-- The same order delivered with pos-system id 3. -/
def exOrderPos3 : GloriaFoodOrder := { exOrder with pos_system_id := some 3 }

/-- An order referencing client external id 7 while supplying no client
fields at all (in particular no email and no marketing consent). -/
def exOrderClient7 : GloriaFoodOrder := { exOrder with client_id := some 7 }

/-- A stored client row with an email and granted marketing consent. -/
def exClientRow : ClientRow :=
  { id := 1
    gloriafood_id := 7
    first_name := some ("Ana")
    last_name := none
    email := some ("ana@example.com")
    phone := none
    order_count := 3
    marketing_consent := 1 }

/-- Worker state holding exactly that client. -/
def exClientState : AppState :=
  { db := { emptyDB with clients := [exClientRow], nextClientId := 2 }, cache := emptyCache }

/-- An option of the shared group. -/
def exMenuOption : MenuOption :=
  { id := 91, name := "Cheese", price := 1, default := false, extras := none }

/-- Option group with external id 9, shared by two items below. -/
def exGroup9 : MenuOptionGroup :=
  { id := 9
    name := "Toppings"
    required := false
    allow_quantity := false
    force_min := 0
    force_max := 2
    options := [exMenuOption] }

/-- First menu item referencing group 9. -/
def exMenuItemA : MenuItem :=
  { id := 100
    name := "Pizza"
    description := none
    price := 10
    active := true
    tags := none
    sizes := none
    groups := some [exGroup9]
    extras := none }

/-- Second menu item referencing group 9. -/
def exMenuItemB : MenuItem := { exMenuItemA with id := 101, name := "Pasta" }

/-- A category holding the two items that share group 9. -/
def exCatShared : MenuCategory :=
  { id := 10
    name := "Mains"
    description := none
    active := true
    items := [exMenuItemA, exMenuItemB]
    groups := none }

/-- Snapshot in which two items of one category reference option group 9. -/
def exMenuShared : GloriaFoodMenuResponse :=
  { id := 900, restaurant_id := 77, active := true, currency := "USD", categories := [exCatShared] }

/-- Two empty categories, for the sort-order scenario. -/
def exCatA : MenuCategory :=
  { id := 10, name := "First", description := none, active := true, items := [], groups := none }

/-- Second empty category appearing later in the snapshot. -/
def exCatB : MenuCategory :=
  { id := 20, name := "Second", description := none, active := true, items := [], groups := none }

/-- Snapshot with two categories and nothing else. -/
def exMenuTwoCats : GloriaFoodMenuResponse :=
  { id := 900, restaurant_id := 77, active := true, currency := "USD", categories := [exCatA, exCatB] }

/-- A stored menu row for snapshot id 900. -/
def exMenuRow : MenuRow :=
  { id := 1, gloriafood_id := 900, restaurant_id := 77, currency := "USD", active := 1 }

/-- A stored category row of that menu, from an earlier successful sync. -/
def exOldCatRow : CategoryRow :=
  { id := 1
    menu_id := 1
    gloriafood_id := 10
    name := "Old tree"
    description := none
    active := 1
    sort_order := 0 }

/-- Worker state holding the previously synced menu tree (one category). -/
def exMenuState : AppState :=
  { db := { emptyDB with
      menus := [exMenuRow]
      nextMenuId := 2
      menu_categories := [exOldCatRow]
      nextCategoryId := 2 }
    cache := emptyCache }

/-- The configured master key used by the webhook instances. -/
def exMasterKey : String := "master-key-1"

/-- A one-order webhook batch. -/
def exBatch : GloriaFoodOrderResponse := { count := 1, orders := [exOrder] }
/-- Cause string used by the failure-injection instances. -/
def exCause : String := "insert failed"

/-! ## Store invariants and snapshot reference counts -/

/-- The dedup-key uniqueness invariant enforced by
`UNIQUE(gloriafood_id, pos_system_id)` on the `orders` table. -/
def UniqueDedupKeys (db : DB) : Prop :=
  ∀ r1 ∈ db.orders, ∀ r2 ∈ db.orders,
    r1.gloriafood_id = r2.gloriafood_id → r1.pos_system_id = r2.pos_system_id → r1 = r2

/-- Row-id uniqueness of the `clients` table (primary key). -/
def UniqueClientIds (db : DB) : Prop :=
  (db.clients.map (fun c => c.id)).Nodup

/-- External-id uniqueness of the `clients` table (`gloriafood_id UNIQUE`). -/
def UniqueClientKeys (db : DB) : Prop :=
  ∀ c1 ∈ db.clients, ∀ c2 ∈ db.clients, c1.gloriafood_id = c2.gloriafood_id → c1 = c2

/-- Option-group rows carrying a given external id. -/
def groupsFor (db : DB) (e : Nat) : List OptionGroupRow :=
  db.menu_option_groups.filter (fun g => g.gloriafood_id == e)

/-- Whether some stored option group carries external id `e`. -/
def hasGroup (db : DB) (e : Nat) : Bool :=
  db.menu_option_groups.any (fun g => g.gloriafood_id == e)

/-- Association rows pointing at a stored option group with external id `e`. -/
def assocsFor (db : DB) (e : Nat) : List AssocRow :=
  db.menu_item_option_groups.filter (fun a =>
    db.menu_option_groups.any (fun g => g.id == a.option_group_id && g.gloriafood_id == e))

/-- Options stored for the option-group row with internal id `gid`. -/
def optionsOfGroupRow (db : DB) (gid : Nat) : List OptionRow :=
  db.menu_options.filter (fun o => o.option_group_id == gid)

/-- Well-formedness of the menu part of the store, maintained by the sync
pipeline: positive AUTOINCREMENT counters (rowids are JS-truthy), all stored
internal group ids below the group counter, at most one group row per external
id, and every option and association row pointing below the group counter
(they reference existing group rows). -/
structure MenuWF (db : DB) : Prop where
  item_counter_pos : 1 ≤ db.nextItemId
  size_counter_pos : 1 ≤ db.nextSizeId
  group_id_lt : ∀ g ∈ db.menu_option_groups, g.id < db.nextOptionGroupId
  group_ids_nodup : (db.menu_option_groups.map (fun g => g.id)).Nodup
  group_ext_unique :
    db.menu_option_groups.Pairwise (fun g1 g2 => g1.gloriafood_id ≠ g2.gloriafood_id)
  option_gid_lt : ∀ o ∈ db.menu_options, o.option_group_id < db.nextOptionGroupId
  assoc_gid_lt : ∀ a ∈ db.menu_item_option_groups, a.option_group_id < db.nextOptionGroupId

/-- Number of references to option-group external id `e` in one group list. -/
def groupRefs (e : Nat) (gs : List MenuOptionGroup) : Nat :=
  (gs.filter (fun g => g.id == e)).length

/-- References to `e` from one size (its own group list). -/
def sizeRefs (e : Nat) (s : MenuItemSize) : Nat :=
  groupRefs e (s.groups.getD [])

/-- References to `e` from one item: its own group list plus those of its sizes. -/
def itemRefs (e : Nat) (it : MenuItem) : Nat :=
  groupRefs e (it.groups.getD []) + ((it.sizes.getD []).map (sizeRefs e)).sum

/-- Item and size references to `e` within one category; category-level groups
are processed without an owner and create no association row. -/
def categoryRefs (e : Nat) (c : MenuCategory) : Nat :=
  (c.items.map (itemRefs e)).sum

/-- Item and size references to `e` within a whole snapshot. -/
def snapshotRefs (e : Nat) (cats : List MenuCategory) : Nat :=
  (cats.map (categoryRefs e)).sum

/-- Whether one group list mentions external id `e`. -/
def mentionsIn (e : Nat) (gs : List MenuOptionGroup) : Bool :=
  gs.any (fun g => g.id == e)

/-- Whether one size mentions `e`. -/
def sizeMentions (e : Nat) (s : MenuItemSize) : Bool :=
  mentionsIn e (s.groups.getD [])

/-- Whether one item mentions `e` (directly or through a size). -/
def itemMentions (e : Nat) (it : MenuItem) : Bool :=
  mentionsIn e (it.groups.getD []) || (it.sizes.getD []).any (sizeMentions e)

/-- Whether one category mentions `e` (through an item, a size, or at category
level). -/
def categoryMentions (e : Nat) (c : MenuCategory) : Bool :=
  c.items.any (itemMentions e) || mentionsIn e (c.groups.getD [])

/-- Whether a snapshot mentions `e` anywhere. -/
def snapshotMentions (e : Nat) (cats : List MenuCategory) : Bool :=
  cats.any (categoryMentions e)

/-- Effect of one rebuild step on the globally identified option-group store:
well-formedness is maintained, the group counter is monotone, a group external
id is present afterwards exactly when it was present before or the step
mentions it, the association rows pointing at external id `e` grow by the
step's reference count for `e`, the options of every pre-existing group row
are untouched, and every pre-existing group row survives with its internal id
and external id. -/
structure GEffect (db db' : DB) (refs : Nat → Nat) (mens : Nat → Bool) : Prop where
  wf : MenuWF db'
  next_mono : db.nextOptionGroupId ≤ db'.nextOptionGroupId
  hasGroup_eq : ∀ e, hasGroup db' e = (hasGroup db e || mens e)
  assoc_count : ∀ e, (assocsFor db' e).length = (assocsFor db e).length + refs e
  options_frame : ∀ gid, gid < db.nextOptionGroupId →
    optionsOfGroupRow db' gid = optionsOfGroupRow db gid
  id_preserved : ∀ g ∈ db.menu_option_groups, ∃ g', g' ∈ db'.menu_option_groups ∧
    g'.id = g.id ∧ g'.gloriafood_id = g.gloriafood_id

/-! ## Theorems -/

/-- C3. The claim states that a failure after the delete phase of a menu sync
leaves the previously stored menu tree intact because delete and rebuild run
in one transaction or a shadow-and-swap. The code wraps nothing: when the
first rebuild INSERT fails after `clearMenuData`, the previously stored
category tree of the menu is gone (the cleared state was committed), the menu
is left empty, and only the error event is recorded before the error is
rethrown. Concretely: a state holding one previously synced category ends the
failed sync with no categories at all. -/
theorem claim3_menu_sync_clear_not_atomic :
    (exMenuState.db.menu_categories.map (fun c => c.id) = [1]) ∧
    ((syncMenuFirstInsertFails exMenuState exMenuTwoCats exCause).db.menu_categories = []) ∧
    ((syncMenuFirstInsertFails exMenuState exMenuTwoCats exCause).db.webhook_logs =
      [{ event_type := evMenuSync
         payload := LogPayload.menuError exCause
         status := stError
         error_message := some exCause }]) := by
  refine ⟨by decide, by decide, by decide⟩

/-- C4. The claim states that the insert fan-out of `processOrder` is one
atomic unit: a failing write rolls back every row the call wrote. The code
uses no transaction and no compensating rollback: when the first
`order_items` INSERT fails, the already committed `orders` row (dedup key
(555, 0)) stays visible while the order has no items — a partially written
order remains in the store. -/
theorem claim4_order_fanout_not_atomic :
    ((processOrderItemWriteFails emptyState exOrder).db.orders.map
        (fun r => (r.id, r.gloriafood_id, r.pos_system_id)) = [(1, 555, 0)]) ∧
    (processOrderItemWriteFails emptyState exOrder).db.order_items = [] := by
  refine ⟨by decide, by decide⟩

/-- C6. The claim states that categories, like items, sizes and options,
carry strictly increasing `sort_order` values reflecting snapshot order. The
`syncMenu` loop calls `processCategory` without a sort-order argument, so its
declared default 0 is used for every category: after syncing a two-category
snapshot both category rows carry `sort_order = 0`, while the items of one
category do receive 0 and 1. -/
theorem claim6_category_sort_order_all_zero :
    (((syncMenu emptyState exMenuTwoCats).2).db.menu_categories.map
        (fun c => (c.gloriafood_id, c.sort_order)) = [(10, 0), (20, 0)]) ∧
    (((syncMenu emptyState exMenuShared).2).db.menu_items.map
        (fun i => (i.gloriafood_id, i.sort_order)) = [(100, 0), (101, 1)]) := by
  refine ⟨by decide, by decide⟩

/-- C9. The claim states that the loser of a concurrent dedup race re-queries
and returns the winner's row. `processOrder` contains no handler for the
UNIQUE-constraint violation: in the interleaving where both invocations pass
the dedup SELECT before either INSERT, the winner commits row 1 and the
loser's INSERT error propagates out of `processOrder` unhandled. -/
theorem claim9_dedup_race_loser_propagates_error :
    ((processOrder emptyState exOrder).1 = .ok (1, true)) ∧
    ((processOrderRaceLoser emptyState exOrder exOrder).1 = .error uniqueViolationMsg) := by
  exact ⟨rfl, rfl⟩

/-- A mismatching or missing credential makes `validateWebhookRequest` answer
false. -/
theorem validateWebhookRequest_eq_false (authHeader : Option String) (masterKey : String)
    (h : authHeader ≠ some masterKey ∨ masterKey = "") :
    validateWebhookRequest authHeader masterKey = false := by
  unfold validateWebhookRequest
  cases authHeader with
  | none => rfl
  | some s =>
    rcases h with h | h
    · have hne : s ≠ masterKey := fun hh => h (by rw [hh])
      by_cases hs : s = ""
      · simp [hs]
      · simp [hs, hne]
    · simp [h]

/-- C8. A push-delivered batch whose Authorization header is not exactly the
configured master key (including a missing header, via `none ≠ some key`, or a
missing configured key, modelled as the empty string) is rejected with 401:
no entity table changes, the cache is untouched, and exactly one
failed-attempt row is appended to the event log. -/
theorem claim8_webhook_auth_rejects_batch (authHeader : Option String) (masterKey : String)
    (payload : GloriaFoodOrderResponse) (st : AppState)
    (h : authHeader ≠ some masterKey ∨ masterKey = "") :
    (handleWebhookOrders authHeader masterKey payload st).1.httpStatus = 401 ∧
    (handleWebhookOrders authHeader masterKey payload st).1.success = false ∧
    ((handleWebhookOrders authHeader masterKey payload st).2).db.orders = st.db.orders ∧
    ((handleWebhookOrders authHeader masterKey payload st).2).db.clients = st.db.clients ∧
    ((handleWebhookOrders authHeader masterKey payload st).2).db.restaurants = st.db.restaurants ∧
    ((handleWebhookOrders authHeader masterKey payload st).2).db.client_addresses =
      st.db.client_addresses ∧
    ((handleWebhookOrders authHeader masterKey payload st).2).db.order_items =
      st.db.order_items ∧
    ((handleWebhookOrders authHeader masterKey payload st).2).db.order_item_options =
      st.db.order_item_options ∧
    ((handleWebhookOrders authHeader masterKey payload st).2).db.order_coupons =
      st.db.order_coupons ∧
    ((handleWebhookOrders authHeader masterKey payload st).2).db.order_taxes =
      st.db.order_taxes ∧
    ((handleWebhookOrders authHeader masterKey payload st).2).db.billing_details =
      st.db.billing_details ∧
    ((handleWebhookOrders authHeader masterKey payload st).2).cache = st.cache ∧
    ((handleWebhookOrders authHeader masterKey payload st).2).db.webhook_logs =
      st.db.webhook_logs ++
        [{ event_type := evOrderReceived
           payload := LogPayload.text payloadUnauthorized
           status := stError
           error_message := some errInvalidMasterKey }] := by
  have hv := validateWebhookRequest_eq_false authHeader masterKey h
  unfold handleWebhookOrders
  rw [hv]
  simp [logEvent, strOrNull, errInvalidMasterKey]

/-- C8 witness: a wrong header against the configured key is rejected on the
empty store. -/
theorem claim8_webhook_auth_rejects_batch_witness :
    ((some ("wrong") : Option String) ≠ some exMasterKey ∨ exMasterKey = "") ∧
    (handleWebhookOrders (some ("wrong")) exMasterKey exBatch emptyState).1.httpStatus = 401 := by
  refine ⟨Or.inl (by decide), ?_⟩
  exact (claim8_webhook_auth_rejects_batch (some ("wrong")) exMasterKey exBatch emptyState
    (Or.inl (by decide))).1

/-- Frame facts about one clear-phase statement: option groups and options are
untouched, association rows are only removed, the counters relevant to the
rebuild are untouched. -/
structure ClearStep (db db' : DB) : Prop where
  groups_eq : db'.menu_option_groups = db.menu_option_groups
  options_eq : db'.menu_options = db.menu_options
  assocs_sub : db'.menu_item_option_groups.Sublist db.menu_item_option_groups
  item_counter_eq : db'.nextItemId = db.nextItemId
  size_counter_eq : db'.nextSizeId = db.nextSizeId
  group_counter_eq : db'.nextOptionGroupId = db.nextOptionGroupId

/-- `ClearStep` is reflexive. -/
theorem ClearStep.refl (db : DB) : ClearStep db db :=
  ⟨rfl, rfl, List.Sublist.refl _, rfl, rfl, rfl⟩

/-- `ClearStep` composes. -/
theorem ClearStep.trans {db1 db2 db3 : DB} (h1 : ClearStep db1 db2) (h2 : ClearStep db2 db3) :
    ClearStep db1 db3 := by
  refine ⟨h2.groups_eq.trans h1.groups_eq, h2.options_eq.trans h1.options_eq,
    h2.assocs_sub.trans h1.assocs_sub, h2.item_counter_eq.trans h1.item_counter_eq,
    h2.size_counter_eq.trans h1.size_counter_eq, h2.group_counter_eq.trans h1.group_counter_eq⟩

/-- `deleteSizesOfItem` is a clear step. -/
theorem deleteSizesOfItem_clearStep (db : DB) (itemId : Nat) :
    ClearStep db (deleteSizesOfItem db itemId) :=
  ⟨rfl, rfl, List.filter_sublist _, rfl, rfl, rfl⟩

/-- `deleteAssocsOfItem` is a clear step. -/
theorem deleteAssocsOfItem_clearStep (db : DB) (itemId : Nat) :
    ClearStep db (deleteAssocsOfItem db itemId) :=
  ⟨rfl, rfl, List.filter_sublist _, rfl, rfl, rfl⟩

/-- `deleteItemsOfCategory` is a clear step. -/
theorem deleteItemsOfCategory_clearStep (db : DB) (categoryId : Nat) :
    ClearStep db (deleteItemsOfCategory db categoryId) :=
  ⟨rfl, rfl, List.filter_sublist _, rfl, rfl, rfl⟩

/-- `deleteCategoriesOfMenu` is a clear step. -/
theorem deleteCategoriesOfMenu_clearStep (db : DB) (menuId : Nat) :
    ClearStep db (deleteCategoriesOfMenu db menuId) :=
  ⟨rfl, rfl, List.filter_sublist _, rfl, rfl, rfl⟩

/-- A fold of clear steps is a clear step. -/
theorem foldl_clearStep {α : Type} (f : DB → α → DB)
    (hf : ∀ db a, ClearStep db (f db a)) :
    ∀ (l : List α) (db : DB), ClearStep db (l.foldl f db) := by
  intro l
  induction l with
  | nil => intro db; exact ClearStep.refl db
  | cons a t ih =>
    intro db
    rw [List.foldl_cons]
    exact (hf db a).trans (ih (f db a))

/-- The whole clear phase is a clear step: option groups and options are
untouched whatever the stored state, association rows only shrink, the
rebuild counters are untouched. -/
theorem clearMenuData_clearStep (db : DB) (menuId : Nat) :
    ClearStep db (clearMenuData db menuId) := by
  unfold clearMenuData
  refine ClearStep.trans ?_ (deleteCategoriesOfMenu_clearStep _ menuId)
  refine foldl_clearStep _ ?_ _ db
  intro db1 cat
  refine ClearStep.trans ?_ (deleteItemsOfCategory_clearStep _ cat.id)
  refine foldl_clearStep _ ?_ _ db1
  intro db2 item
  exact (deleteSizesOfItem_clearStep db2 item.id).trans
    (deleteAssocsOfItem_clearStep _ item.id)

/-- No clear-phase statement before the final category DELETE touches
`menu_categories`, so the clear phase filters exactly the categories of the
synced menu out of the original category table. -/
theorem clearMenuData_categories (db : DB) (menuId : Nat) :
    (clearMenuData db menuId).menu_categories =
      db.menu_categories.filter (fun c => !(c.menu_id == menuId)) := by
  unfold clearMenuData
  have hfold : ∀ (l : List CategoryRow) (db0 : DB),
      (l.foldl (fun db cat =>
        let items := db.menu_items.filter (fun i => i.category_id == cat.id)
        let db := items.foldl (fun db item =>
          deleteAssocsOfItem (deleteSizesOfItem db item.id) item.id) db
        deleteItemsOfCategory db cat.id) db0).menu_categories = db0.menu_categories := by
    intro l
    induction l with
    | nil => intro db0; rfl
    | cons a t ih =>
      intro db0
      rw [List.foldl_cons, ih]
      have hinner : ∀ (il : List ItemRow) (dbi : DB),
          (il.foldl (fun db item =>
            deleteAssocsOfItem (deleteSizesOfItem db item.id) item.id) dbi).menu_categories =
            dbi.menu_categories := by
        intro il
        induction il with
        | nil => intro dbi; rfl
        | cons b u ihb => intro dbi; rw [List.foldl_cons, ihb]; rfl
      simp only [deleteItemsOfCategory, hinner]
  simp only [deleteCategoriesOfMenu, hfold]

/-- C7. The clear phase of a menu sync deletes only rows of the category,
item, size and association tables that are scoped to the synced menu: for
every stored state, `menu_option_groups` and `menu_options` are exactly
unchanged, and the category rows of every other menu survive. -/
theorem claim7_clear_touches_no_option_group (db : DB) (menuId : Nat) :
    (clearMenuData db menuId).menu_option_groups = db.menu_option_groups ∧
    (clearMenuData db menuId).menu_options = db.menu_options ∧
    (∀ c ∈ db.menu_categories, c.menu_id ≠ menuId →
      c ∈ (clearMenuData db menuId).menu_categories) := by
  refine ⟨(clearMenuData_clearStep db menuId).groups_eq,
    (clearMenuData_clearStep db menuId).options_eq, ?_⟩
  intro c hc hne
  rw [clearMenuData_categories]
  refine List.mem_filter.2 ⟨hc, ?_⟩
  simp [hne]

/-- C7 witness: clearing menu 1 of the concrete pre-sync state keeps the
(empty) group tables and the categories of other menus. -/
theorem claim7_clear_touches_no_option_group_witness :
    ((clearMenuData { exMenuState.db with
        menu_categories := [exOldCatRow, { exOldCatRow with id := 9, menu_id := 5 }] } 1
      ).menu_categories.map (fun c => c.id) = [9]) ∧
    ({ exOldCatRow with id := 9, menu_id := 5 } : CategoryRow).menu_id ≠ 1 ∧
    ({ exOldCatRow with id := 9, menu_id := 5 } : CategoryRow) ∈
      (clearMenuData { exMenuState.db with
        menu_categories := [exOldCatRow, { exOldCatRow with id := 9, menu_id := 5 }] } 1
      ).menu_categories := by
  refine ⟨by decide, by decide, ?_⟩
  exact (claim7_clear_touches_no_option_group _ 1).2.2 _ (by decide) (by decide)

/-- C10. After every successful menu sync the `menu:full` cache entry holds
exactly the fetched snapshot, and a `getFullMenu` before the entry expires
returns that snapshot verbatim (the cache-hit branch, which reads nothing
from the store); only a `getFullMenu` on a cache miss assembles and returns
the tree derived from the stored rows. -/
theorem claim10_cache_holds_fetched_snapshot :
    (∀ (st : AppState) (menuData : GloriaFoodMenuResponse),
      ((syncMenu st menuData).2).cache.menuFull = some (MenuCacheValue.snapshot menuData) ∧
      getFullMenu ((syncMenu st menuData).2) =
        (some (MenuCacheValue.snapshot menuData), (syncMenu st menuData).2)) ∧
    (∀ st : AppState, st.cache.menuFull = none →
      (getFullMenu st).1 =
        (st.db.menus.head?).map (fun menu => MenuCacheValue.built (buildFullMenu st.db menu))) := by
  constructor
  · intro st menuData
    exact ⟨rfl, rfl⟩
  · intro st h
    unfold getFullMenu
    rw [h]
    cases st.db.menus.head? with
    | none => rfl
    | some menu => rfl

/-- C10 witness: syncing the shared-group snapshot onto the previously synced
state caches that snapshot and a subsequent read returns it; the empty state
(cache miss, no menu row) builds from the store and finds nothing. -/
theorem claim10_cache_holds_fetched_snapshot_witness :
    ((getFullMenu ((syncMenu exMenuState exMenuShared).2)).1 =
      some (MenuCacheValue.snapshot exMenuShared)) ∧
    emptyState.cache.menuFull = none ∧
    (getFullMenu emptyState).1 = none := by
  refine ⟨?_, rfl, ?_⟩
  · rw [(claim10_cache_holds_fetched_snapshot.1 exMenuState exMenuShared).2]
  · have := claim10_cache_holds_fetched_snapshot.2 emptyState rfl
    rw [this]
    rfl

/-- `List.find?` under a uniqueness hypothesis returns the unique matching
member. -/
theorem find?_eq_some_of_unique {α : Type} (p : α → Bool) (l : List α) (x : α)
    (hx : x ∈ l) (hpx : p x = true) (huniq : ∀ y ∈ l, p y = true → y = x) :
    l.find? p = some x := by
  induction l with
  | nil => cases hx
  | cons a t ih =>
    by_cases hpa : p a = true
    · have ha : a = x := huniq a (List.mem_cons_self a t) hpa
      rw [List.find?_cons_of_pos _ hpa, ha]
    · have hax : ¬x = a := fun hxa => hpa (hxa ▸ hpx)
      have hmem : x ∈ t := (List.mem_cons.1 hx).resolve_left hax
      rw [List.find?_cons_of_neg _ hpa]
      exact ih hmem (fun y hy hpy => huniq y (List.mem_cons_of_mem a hy) hpy)

/-- `saveClientAddress` only writes `client_addresses`. -/
theorem saveClientAddress_frame (db : DB) (cid : Nat) (o : GloriaFoodOrder) :
    (saveClientAddress db cid o).orders = db.orders ∧
    (saveClientAddress db cid o).nextOrderId = db.nextOrderId ∧
    (saveClientAddress db cid o).clients = db.clients := by
  unfold saveClientAddress
  cases o.client_address_parts with
  | none => exact ⟨rfl, rfl, rfl⟩
  | some parts =>
    dsimp only
    split
    · exact ⟨rfl, rfl, rfl⟩
    · exact ⟨rfl, rfl, rfl⟩

/-- Frame of the conditional address save inside `getOrCreateClient`. -/
theorem saveClientAddress_ite_frame (c : Prop) [Decidable c] (db : DB) (cid : Nat)
    (o : GloriaFoodOrder) :
    (if c then saveClientAddress db cid o else db).orders = db.orders ∧
    (if c then saveClientAddress db cid o else db).nextOrderId = db.nextOrderId ∧
    (if c then saveClientAddress db cid o else db).clients = db.clients := by
  split
  · exact saveClientAddress_frame db cid o
  · exact ⟨rfl, rfl, rfl⟩

/-- `getOrCreateClient` never touches `orders` or its counter. -/
theorem getOrCreateClient_frame (db : DB) (o : GloriaFoodOrder) :
    ((getOrCreateClient db o).2).orders = db.orders ∧
    ((getOrCreateClient db o).2).nextOrderId = db.nextOrderId := by
  cases hck : clientKey o with
  | none => simp [getOrCreateClient, hck]
  | some k =>
    cases hf : db.clients.find? (fun c => c.gloriafood_id == k) with
    | some existing =>
      simp only [getOrCreateClient, hck, hf]
      exact ⟨(saveClientAddress_ite_frame _ _ _ o).1, (saveClientAddress_ite_frame _ _ _ o).2.1⟩
    | none =>
      simp only [getOrCreateClient, hck, hf]
      exact ⟨(saveClientAddress_ite_frame _ _ _ o).1, (saveClientAddress_ite_frame _ _ _ o).2.1⟩

/-- `getOrCreateRestaurant` only writes `restaurants`. -/
theorem getOrCreateRestaurant_frame (db : DB) (o : GloriaFoodOrder) :
    ((getOrCreateRestaurant db o).2).orders = db.orders ∧
    ((getOrCreateRestaurant db o).2).nextOrderId = db.nextOrderId ∧
    ((getOrCreateRestaurant db o).2).clients = db.clients := by
  cases hf : db.restaurants.find? (fun r => r.restaurant_key == o.restaurant_key) with
  | some existing => simp [getOrCreateRestaurant, hf]
  | none => simp [getOrCreateRestaurant, hf]

/-- Frame of the conditional option insert inside `insertOrderItems`. -/
theorem insertItemOptions_ite_frame (c : Prop) [Decidable c] (db : DB) (itemId : Nat)
    (opts : List OrderItemOption) :
    (if c then insertItemOptions db itemId opts else db).orders = db.orders ∧
    (if c then insertItemOptions db itemId opts else db).nextOrderId = db.nextOrderId ∧
    (if c then insertItemOptions db itemId opts else db).clients = db.clients := by
  split
  · exact ⟨rfl, rfl, rfl⟩
  · exact ⟨rfl, rfl, rfl⟩

/-- `insertOrderItems` only writes `order_items` and `order_item_options`. -/
theorem insertOrderItems_frame (orderId : Nat) :
    ∀ (items : List OrderItem) (db : DB),
      (insertOrderItems db orderId items).orders = db.orders ∧
      (insertOrderItems db orderId items).nextOrderId = db.nextOrderId ∧
      (insertOrderItems db orderId items).clients = db.clients := by
  intro items
  induction items with
  | nil => intro db; exact ⟨rfl, rfl, rfl⟩
  | cons item rest ih =>
    intro db
    cases ho : item.options with
    | none =>
      simp only [insertOrderItems, ho]
      exact ⟨(ih _).1.trans rfl, (ih _).2.1.trans rfl, (ih _).2.2.trans rfl⟩
    | some opts =>
      simp only [insertOrderItems, ho]
      refine ⟨(ih _).1.trans ?_, (ih _).2.1.trans ?_, (ih _).2.2.trans ?_⟩
      · exact (insertItemOptions_ite_frame _ _ _ _).1
      · exact (insertItemOptions_ite_frame _ _ _ _).2.1
      · exact (insertItemOptions_ite_frame _ _ _ _).2.2

/-- The coupon loop only writes `order_coupons`. -/
theorem insertCoupons_frame (db : DB) (orderId : Nat) (coupons : Option (List String)) :
    (insertCoupons db orderId coupons).orders = db.orders ∧
    (insertCoupons db orderId coupons).nextOrderId = db.nextOrderId ∧
    (insertCoupons db orderId coupons).clients = db.clients := by
  cases coupons with
  | none => exact ⟨rfl, rfl, rfl⟩
  | some cs =>
    simp only [insertCoupons]
    split
    · exact ⟨rfl, rfl, rfl⟩
    · exact ⟨rfl, rfl, rfl⟩

/-- The tax loop only writes `order_taxes`. -/
theorem insertTaxes_frame (db : DB) (orderId : Nat) (taxes : Option (List OrderTax)) :
    (insertTaxes db orderId taxes).orders = db.orders ∧
    (insertTaxes db orderId taxes).nextOrderId = db.nextOrderId ∧
    (insertTaxes db orderId taxes).clients = db.clients := by
  unfold insertTaxes
  cases taxes with
  | none => exact ⟨rfl, rfl, rfl⟩
  | some ts => exact ⟨rfl, rfl, rfl⟩

/-- `insertBillingDetails` only writes `billing_details`. -/
theorem insertBillingDetails_frame (db : DB) (orderId : Nat) (b : Option BillingDetails) :
    (insertBillingDetails db orderId b).orders = db.orders ∧
    (insertBillingDetails db orderId b).nextOrderId = db.nextOrderId ∧
    (insertBillingDetails db orderId b).clients = db.clients := by
  unfold insertBillingDetails
  cases b with
  | none => exact ⟨rfl, rfl, rfl⟩
  | some bd => exact ⟨rfl, rfl, rfl⟩

/-- The order INSERT succeeds when no stored row carries the same dedup key. -/
theorem insertOrderAttempt_ok (db : DB) (row : OrderRow)
    (h : ∀ r ∈ db.orders,
      ¬(r.gloriafood_id == row.gloriafood_id && r.pos_system_id == row.pos_system_id) = true) :
    insertOrderAttempt db row =
      .ok (row.id, { db with orders := db.orders ++ [row], nextOrderId := db.nextOrderId + 1 }) := by
  have hany : (db.orders.any (fun r =>
      r.gloriafood_id == row.gloriafood_id && r.pos_system_id == row.pos_system_id)) = false := by
    rw [List.any_eq_false]
    exact h
  unfold insertOrderAttempt
  rw [hany]
  rfl

/-- Unfolding of `processOrderBody` when the order INSERT succeeds. -/
theorem processOrderBody_eq_ok (st : AppState) (o : GloriaFoodOrder) (n : Nat) (dbI : DB)
    (hins : insertOrderAttempt ((getOrCreateRestaurant ((getOrCreateClient st.db o).2) o).2)
      (orderRowOf o ((getOrCreateRestaurant ((getOrCreateClient st.db o).2) o).1)
        ((getOrCreateClient st.db o).1)
        (((getOrCreateRestaurant ((getOrCreateClient st.db o).2) o).2).nextOrderId)) =
      .ok (n, dbI)) :
    processOrderBody st o =
      (.ok (n, true),
       { db := insertBillingDetails
           (insertTaxes
             (insertCoupons (insertOrderItems dbI n o.items) n o.coupons)
             n o.tax_list)
           n o.billing_details
         cache := { st.cache with hasDashboardStats := false } }) := by
  simp only [processOrderBody]
  rw [hins]

/-- Effect of `processOrderBody` under a missed dedup check: it answers
`(next order id, isNew = true)` and appends exactly one `orders` row carrying
the dedup key of the payload. -/
theorem processOrderBody_effect (st : AppState) (o : GloriaFoodOrder)
    (h : findOrderByDedup st.db o.id (posKey o) = none) :
    (processOrderBody st o).1 = .ok (st.db.nextOrderId, true) ∧
    ∃ row : OrderRow,
      ((processOrderBody st o).2).db.orders = st.db.orders ++ [row] ∧
      row.id = st.db.nextOrderId ∧
      row.gloriafood_id = o.id ∧
      row.pos_system_id = posKey o ∧
      ((processOrderBody st o).2).db.nextOrderId = st.db.nextOrderId + 1 := by
  have hordeq : ((getOrCreateRestaurant ((getOrCreateClient st.db o).2) o).2).orders =
      st.db.orders :=
    (getOrCreateRestaurant_frame _ o).1.trans (getOrCreateClient_frame st.db o).1
  have hcnteq : ((getOrCreateRestaurant ((getOrCreateClient st.db o).2) o).2).nextOrderId =
      st.db.nextOrderId :=
    (getOrCreateRestaurant_frame _ o).2.1.trans (getOrCreateClient_frame st.db o).2
  have hnomatch : ∀ r ∈ st.db.orders,
      ¬(r.gloriafood_id == o.id && r.pos_system_id == posKey o) = true := by
    intro r hr
    exact List.find?_eq_none.1 h r hr
  have hins := insertOrderAttempt_ok
    ((getOrCreateRestaurant ((getOrCreateClient st.db o).2) o).2)
    (orderRowOf o ((getOrCreateRestaurant ((getOrCreateClient st.db o).2) o).1)
      ((getOrCreateClient st.db o).1)
      (((getOrCreateRestaurant ((getOrCreateClient st.db o).2) o).2).nextOrderId))
    (by
      rw [hordeq]
      exact hnomatch)
  have heq := processOrderBody_eq_ok st o _ _ hins
  rw [heq]
  have hrowid : (orderRowOf o ((getOrCreateRestaurant ((getOrCreateClient st.db o).2) o).1)
      ((getOrCreateClient st.db o).1)
      (((getOrCreateRestaurant ((getOrCreateClient st.db o).2) o).2).nextOrderId)).id =
      st.db.nextOrderId := hcnteq
  constructor
  · rw [hrowid]
  refine ⟨orderRowOf o ((getOrCreateRestaurant ((getOrCreateClient st.db o).2) o).1)
      ((getOrCreateClient st.db o).1)
      (((getOrCreateRestaurant ((getOrCreateClient st.db o).2) o).2).nextOrderId),
    ?_, hrowid, rfl, rfl, ?_⟩
  · rw [(insertBillingDetails_frame _ _ _).1, (insertTaxes_frame _ _ _).1,
      (insertCoupons_frame _ _ _).1, (insertOrderItems_frame _ _ _).1]
    show ((getOrCreateRestaurant ((getOrCreateClient st.db o).2) o).2).orders ++ _ =
      st.db.orders ++ _
    rw [hordeq]
  · rw [(insertBillingDetails_frame _ _ _).2.1, (insertTaxes_frame _ _ _).2.1,
      (insertCoupons_frame _ _ _).2.1, (insertOrderItems_frame _ _ _).2.1]
    show ((getOrCreateRestaurant ((getOrCreateClient st.db o).2) o).2).nextOrderId + 1 =
      st.db.nextOrderId + 1
    rw [hcnteq]

/-- `processOrder` reduces to its body on a dedup miss. -/
theorem processOrder_of_miss (st : AppState) (o : GloriaFoodOrder)
    (h : findOrderByDedup st.db o.id (posKey o) = none) :
    processOrder st o = processOrderBody st o := by
  unfold processOrder
  rw [h]

/-- `processOrder` answers the stored id with `isNew = false` and performs no
write on a dedup hit. -/
theorem processOrder_of_hit (st : AppState) (o : GloriaFoodOrder) (r : OrderRow)
    (h : findOrderByDedup st.db o.id (posKey o) = some r) :
    processOrder st o = (.ok (r.id, false), st) := by
  unfold processOrder
  rw [h]

/-- Under the UNIQUE constraint, any stored row carrying the dedup key of the
payload is exactly the row the dedup SELECT returns. -/
theorem findOrderByDedup_of_mem (db : DB) (o : GloriaFoodOrder) (r : OrderRow)
    (hu : UniqueDedupKeys db) (hr : r ∈ db.orders)
    (hg : r.gloriafood_id = o.id) (hp : r.pos_system_id = posKey o) :
    findOrderByDedup db o.id (posKey o) = some r := by
  unfold findOrderByDedup
  refine find?_eq_some_of_unique _ _ r hr ?_ ?_
  · simp [hg, hp]
  · intro y hy hpy
    simp only [Bool.and_eq_true, beq_iff_eq] at hpy
    exact hu y hy r hr (by rw [hpy.1, hg]) (by rw [hpy.2, hp])

/-- C1. Order identity is exactly the dedup key (external order id, pos-system
id defaulting to 0 when absent). First part: ingesting any payload whose dedup
key equals that of a stored order returns that internal id with
`isNew = false` and leaves the whole state untouched. Second part: on a store
holding neither key, ingesting `p1` creates a row and answers
`(next id, true)`; re-ingesting any payload `q` with the same dedup key (in
particular `p1` itself) answers the same internal id with `isNew = false` and
no state change, while ingesting `p2` with the same external order id but a
different pos-system key creates a second, distinct row, and both rows are
stored. -/
theorem claim1_order_identity_dedup_key :
    (∀ (st : AppState) (o : GloriaFoodOrder) (r : OrderRow),
      UniqueDedupKeys st.db → r ∈ st.db.orders →
      r.gloriafood_id = o.id → r.pos_system_id = posKey o →
      processOrder st o = (.ok (r.id, false), st)) ∧
    (∀ (st : AppState) (p1 p2 q : GloriaFoodOrder),
      findOrderByDedup st.db p1.id (posKey p1) = none →
      findOrderByDedup st.db p2.id (posKey p2) = none →
      p2.id = p1.id → posKey p2 ≠ posKey p1 →
      q.id = p1.id → posKey q = posKey p1 →
      ((processOrder st p1).1 = .ok (st.db.nextOrderId, true)) ∧
      (processOrder ((processOrder st p1).2) q =
        (.ok (st.db.nextOrderId, false), (processOrder st p1).2)) ∧
      ((processOrder ((processOrder st p1).2) p2).1 = .ok (st.db.nextOrderId + 1, true)) ∧
      (∃ r1 ∈ ((processOrder ((processOrder st p1).2) p2).2).db.orders,
       ∃ r2 ∈ ((processOrder ((processOrder st p1).2) p2).2).db.orders,
        r1 ≠ r2 ∧
        r1.gloriafood_id = p1.id ∧ r1.pos_system_id = posKey p1 ∧
        r2.gloriafood_id = p2.id ∧ r2.pos_system_id = posKey p2)) := by
  constructor
  · intro st o r hu hr hg hp
    exact processOrder_of_hit st o r (findOrderByDedup_of_mem st.db o r hu hr hg hp)
  · intro st p1 p2 q h1 h2 hid hpos hqid hqpos
    rw [processOrder_of_miss st p1 h1]
    obtain ⟨hres1, row1, horders1, hrid1, hrg1, hrp1, hcnt1⟩ := processOrderBody_effect st p1 h1
    have hfindq : findOrderByDedup ((processOrderBody st p1).2).db q.id (posKey q) =
        some row1 := by
      unfold findOrderByDedup
      rw [horders1, List.find?_append]
      have hnone : st.db.orders.find?
          (fun x => x.gloriafood_id == q.id && x.pos_system_id == posKey q) = none := by
        rw [hqid, hqpos]
        unfold findOrderByDedup at h1
        exact h1
      rw [hnone]
      have hpr : (row1.gloriafood_id == q.id && row1.pos_system_id == posKey q) = true := by
        simp [hrg1, hrp1, hqid, hqpos]
      simp [List.find?_cons_of_pos, hpr]
    have hfindp2 : findOrderByDedup ((processOrderBody st p1).2).db p2.id (posKey p2) =
        none := by
      unfold findOrderByDedup
      rw [horders1, List.find?_append]
      unfold findOrderByDedup at h2
      rw [h2]
      have hprpos : (row1.pos_system_id == posKey p2) = false := by
        rw [hrp1]
        exact beq_eq_false_iff_ne.2 (fun hh => hpos hh.symm)
      simp [List.find?, hprpos]
    obtain ⟨hres2, row2, horders2, hrid2, hrg2, hrp2, hcnt2⟩ :=
      processOrderBody_effect ((processOrderBody st p1).2) p2 hfindp2
    refine ⟨hres1, ?_, ?_, ?_⟩
    · rw [processOrder_of_hit _ q row1 hfindq, hrid1]
    · rw [processOrder_of_miss _ p2 hfindp2, hres2, hcnt1]
    · rw [processOrder_of_miss _ p2 hfindp2]
      refine ⟨row1, ?_, row2, ?_, ?_, hrg1.trans rfl, hrp1, hrg2, hrp2⟩
      · rw [horders2, horders1]
        simp
      · rw [horders2]
        simp
      · intro he
        rw [he] at hrid1
        rw [hrid2, hcnt1] at hrid1
        omega

/-- C1 witness: on the empty store, ingesting order 555 gives internal id 1;
re-ingesting the identical payload answers (1, false) with no state change; a
payload with the same external id but pos-system id 3 gets the distinct
internal id 2; and the dedup-hit branch applies to the stored row. -/
theorem claim1_order_identity_dedup_key_witness :
    (findOrderByDedup emptyState.db exOrder.id (posKey exOrder) = none) ∧
    (findOrderByDedup emptyState.db exOrderPos3.id (posKey exOrderPos3) = none) ∧
    exOrderPos3.id = exOrder.id ∧ posKey exOrderPos3 ≠ posKey exOrder ∧
    ((processOrder emptyState exOrder).1 = .ok (1, true)) ∧
    (processOrder ((processOrder emptyState exOrder).2) exOrder =
      (.ok (1, false), (processOrder emptyState exOrder).2)) ∧
    ((processOrder ((processOrder emptyState exOrder).2) exOrderPos3).1 = .ok (2, true)) ∧
    UniqueDedupKeys ((processOrder emptyState exOrder).2).db ∧
    (orderRowOf exOrder 1 none 1) ∈ ((processOrder emptyState exOrder).2).db.orders ∧
    (processOrder ((processOrder emptyState exOrder).2) exOrder =
      (.ok ((orderRowOf exOrder 1 none 1).id, false), (processOrder emptyState exOrder).2)) := by
  have hu : UniqueDedupKeys ((processOrder emptyState exOrder).2).db := by
    unfold UniqueDedupKeys
    decide
  have h := claim1_order_identity_dedup_key.2 emptyState exOrder exOrderPos3 exOrder
    (by decide) (by decide) (by decide) (by decide) (by decide) (by decide)
  have h1 := claim1_order_identity_dedup_key.1 ((processOrder emptyState exOrder).2) exOrder
    (orderRowOf exOrder 1 none 1) hu (by decide) (by decide) (by decide)
  exact ⟨by decide, by decide, by decide, by decide, h.1, h.2.1, h.2.2.1, hu, by decide, h1⟩

/-- C5 counterexample. The claim says every client field absent from the
payload keeps its stored value. `marketing_consent` does not: updating stored
client 7 (consent granted, email present) with a payload carrying no client
fields resets `marketing_consent` to 0 — the update binds
`order.client_marketing_consent ? 1 : 0` unconditionally — while the email is
indeed kept. -/
theorem claim5_absent_fields_counterexample :
    (exClientState.db.clients.map (fun c => c.marketing_consent) = [1]) ∧
    (exOrderClient7.client_marketing_consent = none) ∧
    (((processOrder exClientState exOrderClient7).2).db.clients.map
      (fun c => (c.email, c.marketing_consent)) = [(some ("ana@example.com"), 0)]) := by
  refine ⟨by decide, by decide, by decide⟩

/-- A successful order INSERT keeps every other table, in particular
`clients`. -/
theorem insertOrderAttempt_clients (db : DB) (row : OrderRow) (n : Nat) (dbI : DB)
    (h : insertOrderAttempt db row = .ok (n, dbI)) : dbI.clients = db.clients := by
  unfold insertOrderAttempt at h
  split at h
  · cases h
  · simp only [Except.ok.injEq, Prod.mk.injEq] at h
    rw [← h.2]

/-- Whatever the outcome of the order INSERT, `processOrderBody` leaves the
`clients` table exactly as client resolution left it. -/
theorem processOrderBody_clients (st : AppState) (o : GloriaFoodOrder) :
    ((processOrderBody st o).2).db.clients = ((getOrCreateClient st.db o).2).clients := by
  simp only [processOrderBody]
  cases hins : insertOrderAttempt ((getOrCreateRestaurant ((getOrCreateClient st.db o).2) o).2)
      (orderRowOf o ((getOrCreateRestaurant ((getOrCreateClient st.db o).2) o).1)
        ((getOrCreateClient st.db o).1)
        (((getOrCreateRestaurant ((getOrCreateClient st.db o).2) o).2).nextOrderId)) with
  | error e =>
    exact (getOrCreateRestaurant_frame _ o).2.2
  | ok val =>
    obtain ⟨n, dbI⟩ := val
    have hI : dbI.clients = ((getOrCreateRestaurant ((getOrCreateClient st.db o).2) o).2).clients :=
      insertOrderAttempt_clients _ _ _ _ hins
    calc ((insertBillingDetails
            (insertTaxes (insertCoupons (insertOrderItems dbI n o.items) n o.coupons) n o.tax_list)
            n o.billing_details)).clients
        = dbI.clients := by
          rw [(insertBillingDetails_frame _ _ _).2.2, (insertTaxes_frame _ _ _).2.2,
            (insertCoupons_frame _ _ _).2.2, (insertOrderItems_frame _ _ _).2.2]
      _ = _ := hI.trans (getOrCreateRestaurant_frame _ o).2.2

/-- On the existing-client branch, client resolution maps the in-place UPDATE
over the `clients` table. -/
theorem getOrCreateClient_clients_update (db : DB) (o : GloriaFoodOrder) (k : Nat) (c : ClientRow)
    (hck : clientKey o = some k)
    (hfind : db.clients.find? (fun x => x.gloriafood_id == k) = some c) :
    ((getOrCreateClient db o).2).clients =
      db.clients.map (fun x => if x.id == c.id then applyClientUpdate o x else x) := by
  simp only [getOrCreateClient, hck, hfind]
  exact (saveClientAddress_ite_frame _ _ _ o).2.2.trans rfl

/-- C5 amended. For every newly ingested order whose client external id
matches a stored client row: the COALESCE-updated fields (first name, last
name, email, phone) keep their stored value when absent from the payload and
take the supplied value when present — in particular an absent email never
erases a stored one — `order_count` is recomputed from the payload
(`client_order_count || 0`), and `marketing_consent` is overwritten from the
payload (reset to 0 when absent), rather than keeping its stored value. -/
theorem claim5_client_merge_amended (st : AppState) (o : GloriaFoodOrder) (c : ClientRow)
    (k : Nat)
    (hnew : findOrderByDedup st.db o.id (posKey o) = none)
    (hck : clientKey o = some k)
    (hu : UniqueClientKeys st.db) (hids : UniqueClientIds st.db)
    (hc : c ∈ st.db.clients) (hk : c.gloriafood_id = k) :
    ∀ x ∈ ((processOrder st o).2).db.clients, x.id = c.id →
      (o.client_first_name = none → x.first_name = c.first_name) ∧
      (o.client_last_name = none → x.last_name = c.last_name) ∧
      (o.client_email = none → x.email = c.email) ∧
      (o.client_phone = none → x.phone = c.phone) ∧
      (∀ v, o.client_first_name = some v → x.first_name = some v) ∧
      (∀ v, o.client_last_name = some v → x.last_name = some v) ∧
      (∀ v, o.client_email = some v → x.email = some v) ∧
      (∀ v, o.client_phone = some v → x.phone = some v) ∧
      x.order_count = (natTruthy o.client_order_count).getD 0 ∧
      x.marketing_consent = boolBit o.client_marketing_consent := by
  have hfind : st.db.clients.find? (fun x => x.gloriafood_id == k) = some c := by
    refine find?_eq_some_of_unique _ _ c hc ?_ ?_
    · simp [hk]
    · intro y hy hpy
      simp only [beq_iff_eq] at hpy
      exact hu y hy c hc (hpy.trans hk.symm)
  have hclients : ((processOrder st o).2).db.clients =
      st.db.clients.map (fun x => if x.id == c.id then applyClientUpdate o x else x) := by
    rw [processOrder_of_miss st o hnew, processOrderBody_clients st o]
    exact getOrCreateClient_clients_update st.db o k c hck hfind
  intro x hx hxid
  rw [hclients] at hx
  obtain ⟨y, hy, hxy⟩ := List.mem_map.1 hx
  by_cases hyc : (y.id == c.id) = true
  · have hyceq : y = c := by
      refine List.inj_on_of_nodup_map hids hy hc ?_
      simpa using hyc
    rw [hyceq] at hxy
    simp only [beq_self_eq_true, if_true] at hxy
    subst hxy
    refine ⟨?_, ?_, ?_, ?_, ?_, ?_, ?_, ?_, rfl, rfl⟩
    · intro h0; simp [applyClientUpdate, h0]
    · intro h0; simp [applyClientUpdate, h0]
    · intro h0; simp [applyClientUpdate, h0]
    · intro h0; simp [applyClientUpdate, h0]
    · intro v h0; simp [applyClientUpdate, h0]
    · intro v h0; simp [applyClientUpdate, h0]
    · intro v h0; simp [applyClientUpdate, h0]
    · intro v h0; simp [applyClientUpdate, h0]
  · rw [if_neg hyc] at hxy
    subst hxy
    exact absurd (by simp [hxid]) hyc

/-- C5 witness: updating stored client 7 with a payload carrying no client
fields keeps the stored email. -/
theorem claim5_client_merge_amended_witness :
    (findOrderByDedup exClientState.db exOrderClient7.id (posKey exOrderClient7) = none) ∧
    (clientKey exOrderClient7 = some 7) ∧
    UniqueClientKeys exClientState.db ∧ UniqueClientIds exClientState.db ∧
    exClientRow ∈ exClientState.db.clients ∧ exClientRow.gloriafood_id = 7 ∧
    (applyClientUpdate exOrderClient7 exClientRow ∈
      ((processOrder exClientState exOrderClient7).2).db.clients) ∧
    (applyClientUpdate exOrderClient7 exClientRow).email = exClientRow.email := by
  have hu : UniqueClientKeys exClientState.db := by unfold UniqueClientKeys; decide
  have hids : UniqueClientIds exClientState.db := by unfold UniqueClientIds; decide
  refine ⟨by decide, by decide, hu, hids, by decide, by decide, by decide, ?_⟩
  exact (claim5_client_merge_amended exClientState exOrderClient7 exClientRow 7
      (by decide) (by decide) hu hids (by decide) (by decide)
      (applyClientUpdate exOrderClient7 exClientRow) (by decide) (by decide)).2.2.1 (by decide)

/-- The identity rebuild step. -/
theorem GEffect_id (db : DB) (hwf : MenuWF db) :
    GEffect db db (fun _ => 0) (fun _ => false) := by
  refine ⟨hwf, Nat.le_refl _, ?_, ?_, ?_, ?_⟩
  · intro e; simp
  · intro e; simp
  · intro gid _; rfl
  · intro g hg; exact ⟨g, hg, rfl, rfl⟩

/-- Rebuild steps compose. -/
theorem GEffect_trans {db1 db2 db3 : DB} {r1 r2 : Nat → Nat} {m1 m2 : Nat → Bool}
    (h1 : GEffect db1 db2 r1 m1) (h2 : GEffect db2 db3 r2 m2) :
    GEffect db1 db3 (fun e => r1 e + r2 e) (fun e => m1 e || m2 e) := by
  refine ⟨h2.wf, h1.next_mono.trans h2.next_mono, ?_, ?_, ?_, ?_⟩
  · intro e; rw [h2.hasGroup_eq, h1.hasGroup_eq, Bool.or_assoc]
  · intro e; rw [h2.assoc_count, h1.assoc_count]; omega
  · intro gid hlt
    rw [h2.options_frame gid (lt_of_lt_of_le hlt h1.next_mono), h1.options_frame gid hlt]
  · intro g hg
    obtain ⟨g1, hg1, hid1, hext1⟩ := h1.id_preserved g hg
    obtain ⟨g2, hg2, hid2, hext2⟩ := h2.id_preserved g1 hg1
    exact ⟨g2, hg2, hid2.trans hid1, hext2.trans hext1⟩

/-- Pointwise rewriting of the effect functions. -/
theorem GEffect_congr {db db' : DB} {r r' : Nat → Nat} {m m' : Nat → Bool}
    (h : GEffect db db' r m) (hr : ∀ e, r e = r' e) (hm : ∀ e, m e = m' e) :
    GEffect db db' r' m' := by
  refine ⟨h.wf, h.next_mono, ?_, ?_, h.options_frame, h.id_preserved⟩
  · intro e; rw [← hm e, h.hasGroup_eq]
  · intro e; rw [← hr e, h.assoc_count]

/-- A statement that touches none of the group, option and association tables
and not the group counter is a zero rebuild step; the item and size counters
may only grow. -/
theorem GEffect_frame {db db' : DB}
    (hwf : MenuWF db)
    (hg : db'.menu_option_groups = db.menu_option_groups)
    (ho : db'.menu_options = db.menu_options)
    (ha : db'.menu_item_option_groups = db.menu_item_option_groups)
    (hn : db'.nextOptionGroupId = db.nextOptionGroupId)
    (hi : db.nextItemId ≤ db'.nextItemId)
    (hs : db.nextSizeId ≤ db'.nextSizeId) :
    GEffect db db' (fun _ => 0) (fun _ => false) := by
  refine ⟨⟨hwf.item_counter_pos.trans hi, hwf.size_counter_pos.trans hs, ?_, ?_, ?_, ?_, ?_⟩,
    le_of_eq hn.symm, ?_, ?_, ?_, ?_⟩
  · intro g hgm; rw [hn]; exact hwf.group_id_lt g (hg ▸ hgm)
  · rw [hg]; exact hwf.group_ids_nodup
  · rw [hg]; exact hwf.group_ext_unique
  · intro o hom; rw [hn]; exact hwf.option_gid_lt o (ho ▸ hom)
  · intro a ham; rw [hn]; exact hwf.assoc_gid_lt a (ha ▸ ham)
  · intro e; unfold hasGroup; rw [hg]; simp
  · intro e; unfold assocsFor; rw [ha, hg]; simp
  · intro gid hlt; unfold optionsOfGroupRow; rw [ho]
  · intro g hgm; rw [hg]; exact ⟨g, hgm, rfl, rfl⟩

/-- `List.any` is stable under mapping a function that preserves the tested
predicate. -/
theorem any_map_stable {α : Type} (l : List α) (f : α → α) (q : α → Bool)
    (h : ∀ x, q (f x) = q x) : (l.map f).any q = l.any q := by
  induction l with
  | nil => rfl
  | cons a t ih => simp [h, ih]

/-- Effect of the in-place group UPDATE (a map preserving internal and
external ids) on the group store. -/
theorem mapUpd_effect (db : DB) (hwf : MenuWF db) (upd : OptionGroupRow → OptionGroupRow)
    (hid : ∀ x, (upd x).id = x.id) (hext : ∀ x, (upd x).gloriafood_id = x.gloriafood_id) :
    MenuWF { db with menu_option_groups := db.menu_option_groups.map upd } ∧
    (∀ e, hasGroup { db with menu_option_groups := db.menu_option_groups.map upd } e =
      hasGroup db e) ∧
    (∀ e, assocsFor { db with menu_option_groups := db.menu_option_groups.map upd } e =
      assocsFor db e) := by
  refine ⟨⟨hwf.item_counter_pos, hwf.size_counter_pos, ?_, ?_, ?_,
      hwf.option_gid_lt, hwf.assoc_gid_lt⟩, ?_, ?_⟩
  · intro x' hx'
    obtain ⟨x, hx, hfx⟩ := List.mem_map.1 hx'
    rw [← hfx, hid]
    exact hwf.group_id_lt x hx
  · have : (db.menu_option_groups.map upd).map (fun x => x.id) =
        db.menu_option_groups.map (fun x => x.id) := by
      rw [List.map_map]
      exact List.map_congr_left (fun x _ => hid x)
    rw [this]
    exact hwf.group_ids_nodup
  · refine List.Pairwise.map upd ?_ hwf.group_ext_unique
    intro a b hab
    rw [hext, hext]
    exact hab
  · intro e
    unfold hasGroup
    exact any_map_stable _ upd _ (fun x => by rw [hext])
  · intro e
    unfold assocsFor
    refine List.filter_congr ?_
    intro a _
    exact any_map_stable _ upd _ (fun x => by rw [hid, hext])

/-- `insertNewGroupOptions` only appends `menu_options` rows, all owned by the
freshly created group. -/
theorem insertNewGroupOptions_effect (groupId : Nat) :
    ∀ (opts : List MenuOption) (n : Nat) (db : DB) (stats : Stats),
      ((insertNewGroupOptions groupId opts n (db, stats)).1.menu_option_groups =
        db.menu_option_groups) ∧
      ((insertNewGroupOptions groupId opts n (db, stats)).1.menu_item_option_groups =
        db.menu_item_option_groups) ∧
      ((insertNewGroupOptions groupId opts n (db, stats)).1.nextOptionGroupId =
        db.nextOptionGroupId) ∧
      ((insertNewGroupOptions groupId opts n (db, stats)).1.nextItemId = db.nextItemId) ∧
      ((insertNewGroupOptions groupId opts n (db, stats)).1.nextSizeId = db.nextSizeId) ∧
      (∀ o ∈ (insertNewGroupOptions groupId opts n (db, stats)).1.menu_options,
        o ∈ db.menu_options ∨ o.option_group_id = groupId) ∧
      (∀ gid2, ¬gid2 = groupId →
        optionsOfGroupRow (insertNewGroupOptions groupId opts n (db, stats)).1 gid2 =
          optionsOfGroupRow db gid2) := by
  intro opts
  induction opts with
  | nil =>
    intro n db stats
    exact ⟨rfl, rfl, rfl, rfl, rfl, fun o ho => Or.inl ho, fun gid2 _ => rfl⟩
  | cons option rest ih =>
    intro n db stats
    simp only [insertNewGroupOptions]
    refine ⟨(ih _ _ _).1, (ih _ _ _).2.1, (ih _ _ _).2.2.1, (ih _ _ _).2.2.2.1,
      (ih _ _ _).2.2.2.2.1, ?_, ?_⟩
    · intro o ho
      rcases (ih _ _ _).2.2.2.2.2.1 o ho with hin | hgid
      · rcases List.mem_append.1 hin with hold | hnew
        · exact Or.inl hold
        · right
          have ho' := List.mem_singleton.1 hnew
          rw [ho']
      · exact Or.inr hgid
    · intro gid2 hne
      rw [(ih _ _ _).2.2.2.2.2.2 gid2 hne]
      simp only [optionsOfGroupRow]
      rw [List.filter_append]
      have hnil : List.filter (fun o => o.option_group_id == gid2)
          [{ option_group_id := groupId
             gloriafood_id := option.id
             name := option.name
             price := option.price
             is_default := bit option.default
             kitchen_internal_name :=
               strOrNull (option.extras.bind (fun e => e.menu_option_kitchen_internal_name))
             sort_order := n }] = ([] : List OptionRow) := by
        have hb : ((groupId : Nat) == gid2) = false :=
          beq_eq_false_iff_ne.2 (fun hh => hne hh.symm)
        simp [List.filter, hb]
      rw [hnil, List.append_nil]

/-- Effect of the in-place UPDATE branch of `processOptionGroup`: no reference
is added, the processed external id counts as mentioned, everything else is
framed. -/
theorem groupUpdate_effect (db : DB) (hwf : MenuWF db) (g : MenuOptionGroup)
    (E : OptionGroupRow)
    (hfind : db.menu_option_groups.find? (fun x => x.gloriafood_id == g.id) = some E) :
    GEffect db
      { db with menu_option_groups := db.menu_option_groups.map (fun x =>
          if x.id == E.id then
            { x with
              name := g.name
              required := bit g.required
              allow_quantity := bit g.allow_quantity
              force_min := g.force_min
              force_max := g.force_max }
          else x) }
      (fun _ => 0) (fun e => g.id == e) := by
  have hEmem : E ∈ db.menu_option_groups := List.mem_of_find?_eq_some hfind
  have hEext : E.gloriafood_id = g.id := by
    have h := List.find?_some hfind
    simpa using h
  obtain ⟨hwfU, hhasU, hassocU⟩ := mapUpd_effect db hwf
    (fun x => if x.id == E.id then
      { x with
        name := g.name
        required := bit g.required
        allow_quantity := bit g.allow_quantity
        force_min := g.force_min
        force_max := g.force_max }
      else x)
    (fun x => by by_cases h : (x.id == E.id) = true <;> simp [h])
    (fun x => by by_cases h : (x.id == E.id) = true <;> simp [h])
  refine ⟨hwfU, Nat.le_refl _, ?_, ?_, ?_, ?_⟩
  · intro e
    rw [hhasU e]
    by_cases he : ((g.id : Nat) == e) = true
    · have hee : g.id = e := by simpa using he
      have hg : hasGroup db e = true := by
        unfold hasGroup
        refine List.any_eq_true.2 ⟨E, hEmem, ?_⟩
        simp [hEext, hee]
      rw [hg, he, Bool.true_or]
    · have he' : ((g.id : Nat) == e) = false := by simpa using he
      rw [he', Bool.or_false]
  · intro e
    rw [hassocU e]
    simp
  · intro gid hlt
    rfl
  · intro g0 hg0
    refine ⟨_, List.mem_map_of_mem _ hg0, ?_, ?_⟩
    · by_cases h : (g0.id == E.id) = true <;> simp [h]
    · by_cases h : (g0.id == E.id) = true <;> simp [h]

/-- Effect of appending a freshly numbered group row whose external id is not
yet stored. -/
theorem groupAppend_effect (db : DB) (hwf : MenuWF db) (N : OptionGroupRow)
    (hNid : N.id = db.nextOptionGroupId)
    (hNext : ∀ x ∈ db.menu_option_groups, ¬x.gloriafood_id = N.gloriafood_id) :
    GEffect db
      { db with
        menu_option_groups := db.menu_option_groups ++ [N]
        nextOptionGroupId := db.nextOptionGroupId + 1 }
      (fun _ => 0) (fun e => N.gloriafood_id == e) := by
  refine ⟨⟨hwf.item_counter_pos, hwf.size_counter_pos, ?_, ?_, ?_, ?_, ?_⟩,
    Nat.le_succ _, ?_, ?_, ?_, ?_⟩
  · intro x hx
    rcases List.mem_append.1 hx with hold | hnew
    · exact (hwf.group_id_lt x hold).trans (Nat.lt_succ_self _)
    · rw [List.mem_singleton.1 hnew, hNid]
      exact Nat.lt_succ_self _
  · show ((db.menu_option_groups ++ [N]).map (fun x => x.id)).Nodup
    rw [List.map_append]
    refine List.Nodup.append hwf.group_ids_nodup (List.nodup_singleton _) ?_
    intro a ha hb
    obtain ⟨x, hxm, hxe⟩ := List.mem_map.1 ha
    have hb' : a = N.id := by simpa using hb
    have hlt := hwf.group_id_lt x hxm
    omega
  · show ((db.menu_option_groups ++ [N]).Pairwise (fun g1 g2 => g1.gloriafood_id ≠ g2.gloriafood_id))
    refine List.pairwise_append.2 ⟨hwf.group_ext_unique, List.pairwise_singleton _ _, ?_⟩
    intro a ha b hb
    rw [List.mem_singleton.1 hb]
    exact hNext a ha
  · intro o ho
    exact (hwf.option_gid_lt o ho).trans (Nat.lt_succ_self _)
  · intro a ha
    exact (hwf.assoc_gid_lt a ha).trans (Nat.lt_succ_self _)
  · intro e
    unfold hasGroup
    show (db.menu_option_groups ++ [N]).any (fun x => x.gloriafood_id == e) = _
    rw [List.any_append]
    simp
  · intro e
    unfold assocsFor
    show (List.filter (fun a => (db.menu_option_groups ++ [N]).any
        (fun y => y.id == a.option_group_id && y.gloriafood_id == e))
        db.menu_item_option_groups).length = _
    have hcongr : ∀ a ∈ db.menu_item_option_groups,
        ((db.menu_option_groups ++ [N]).any
          (fun y => y.id == a.option_group_id && y.gloriafood_id == e)) =
        (db.menu_option_groups.any
          (fun y => y.id == a.option_group_id && y.gloriafood_id == e)) := by
      intro a ha
      rw [List.any_append]
      have hne : ((N.id == a.option_group_id) : Bool) = false := by
        refine beq_eq_false_iff_ne.2 ?_
        rw [hNid]
        intro hh
        have := hwf.assoc_gid_lt a ha
        omega
      simp [hne]
    rw [List.filter_congr hcongr]
    simp
  · intro gid hlt
    rfl
  · intro g0 h0
    exact ⟨g0, List.mem_append.2 (Or.inl h0), rfl, rfl⟩

/-- Effect of appending one association row pointing at the stored group with
external id `eA`. -/
theorem assocAppend_effect (db : DB) (hwf : MenuWF db) (A : AssocRow) (eA : Nat)
    (hmem : ∃ y, y ∈ db.menu_option_groups ∧ y.id = A.option_group_id ∧
      y.gloriafood_id = eA) :
    GEffect db { db with menu_item_option_groups := db.menu_item_option_groups ++ [A] }
      (fun e => if (eA == e) = true then 1 else 0) (fun _ => false) := by
  obtain ⟨y, hy, hyid, hyext⟩ := hmem
  refine ⟨⟨hwf.item_counter_pos, hwf.size_counter_pos, hwf.group_id_lt, hwf.group_ids_nodup,
      hwf.group_ext_unique, hwf.option_gid_lt, ?_⟩, Nat.le_refl _, ?_, ?_, ?_, ?_⟩
  · intro a ha
    rcases List.mem_append.1 ha with hold | hnew
    · exact hwf.assoc_gid_lt a hold
    · rw [List.mem_singleton.1 hnew, ← hyid]
      exact hwf.group_id_lt y hy
  · intro e
    have h : hasGroup
        { db with menu_item_option_groups := db.menu_item_option_groups ++ [A] } e =
        hasGroup db e := rfl
    rw [h, Bool.or_false]
  · intro e
    unfold assocsFor
    show (List.filter (fun a => db.menu_option_groups.any
        (fun z => z.id == a.option_group_id && z.gloriafood_id == e))
        (db.menu_item_option_groups ++ [A])).length = _
    rw [List.filter_append, List.length_append]
    have hsing : (List.filter (fun a => db.menu_option_groups.any
        (fun z => z.id == a.option_group_id && z.gloriafood_id == e)) [A]).length =
        if (eA == e) = true then 1 else 0 := by
      by_cases hae : ((eA : Nat) == e) = true
      · have hee : eA = e := by simpa using hae
        have hPA : db.menu_option_groups.any
            (fun z => z.id == A.option_group_id && z.gloriafood_id == e) = true := by
          refine List.any_eq_true.2 ⟨y, hy, ?_⟩
          simp [hyid, hyext, hee]
        simp [List.filter, hPA, hae]
      · have hae' : ((eA : Nat) == e) = false := by simpa using hae
        have hPA : db.menu_option_groups.any
            (fun z => z.id == A.option_group_id && z.gloriafood_id == e) = false := by
          rw [Bool.eq_false_iff]
          intro hany
          obtain ⟨z, hz, hzp⟩ := List.any_eq_true.1 hany
          simp only [Bool.and_eq_true, beq_iff_eq] at hzp
          have hzy : z = y :=
            List.inj_on_of_nodup_map hwf.group_ids_nodup hz hy (hzp.1.trans hyid.symm)
          rw [hzy] at hzp
          rw [hyext] at hzp
          rw [hzp.2] at hae'
          simp at hae'
        simp [List.filter, hPA, hae']
    rw [hsing]
  · intro gid hlt
    rfl
  · intro g0 h0
    exact ⟨g0, h0, rfl, rfl⟩

/-- Appending the options of a freshly created group (whose id sits between
the group counter of the initial store and the current counter) preserves a
rebuild effect. -/
theorem optionsInsert_preserve_effect {db dbIf : DB} {r : Nat → Nat} {m : Nat → Bool}
    (h : GEffect db dbIf r m) (groupId : Nat)
    (hlt : groupId < dbIf.nextOptionGroupId)
    (hge : db.nextOptionGroupId ≤ groupId)
    (opts : List MenuOption) (n : Nat) (stats : Stats) :
    GEffect db (insertNewGroupOptions groupId opts n (dbIf, stats)).1 r m := by
  obtain ⟨hg, ha, hn, hi, hs, hoptm, hofr⟩ := insertNewGroupOptions_effect groupId opts n dbIf stats
  refine ⟨⟨?_, ?_, ?_, ?_, ?_, ?_, ?_⟩, ?_, ?_, ?_, ?_, ?_⟩
  · rw [hi]; exact h.wf.item_counter_pos
  · rw [hs]; exact h.wf.size_counter_pos
  · intro x hx
    rw [hg] at hx
    rw [hn]
    exact h.wf.group_id_lt x hx
  · rw [hg]; exact h.wf.group_ids_nodup
  · rw [hg]; exact h.wf.group_ext_unique
  · intro o ho
    rw [hn]
    rcases hoptm o ho with hin | hgid
    · exact h.wf.option_gid_lt o hin
    · rw [hgid]; exact hlt
  · intro a haa
    rw [ha] at haa
    rw [hn]
    exact h.wf.assoc_gid_lt a haa
  · rw [hn]; exact h.next_mono
  · intro e
    have heq : hasGroup (insertNewGroupOptions groupId opts n (dbIf, stats)).1 e =
        hasGroup dbIf e := by
      unfold hasGroup
      rw [hg]
    rw [heq, h.hasGroup_eq]
  · intro e
    have heq : assocsFor (insertNewGroupOptions groupId opts n (dbIf, stats)).1 e =
        assocsFor dbIf e := by
      unfold assocsFor
      rw [hg, ha]
    rw [heq, h.assoc_count]
  · intro gid2 hlt2
    have hne : ¬gid2 = groupId := by omega
    rw [hofr gid2 hne]
    exact h.options_frame gid2 hlt2
  · intro g0 h0
    obtain ⟨g1, hg1, hidp, hextp⟩ := h.id_preserved g0 h0
    refine ⟨g1, ?_, hidp, hextp⟩
    rw [hg]
    exact hg1

/-- Core shared-identity step: effect of one `processOptionGroup` call — the
processed external id becomes present exactly once as a group, one
association row pointing at it is created when an item or size owner was
passed, options of pre-existing groups are untouched, stored group identities
survive. -/
theorem processOptionGroup_effect (g : MenuOptionGroup) (itemId sizeId : Option Nat)
    (db : DB) (stats : Stats) (hwf : MenuWF db) :
    GEffect db (processOptionGroup g itemId sizeId db stats).1
      (fun e => if ((idTruthy itemId || idTruthy sizeId) && g.id == e) = true then 1 else 0)
      (fun e => g.id == e) := by
  cases hfind : db.menu_option_groups.find? (fun x => x.gloriafood_id == g.id) with
  | some E =>
    have h1 := groupUpdate_effect db hwf g E hfind
    have hEmem : E ∈ db.menu_option_groups := List.mem_of_find?_eq_some hfind
    have hEext : E.gloriafood_id = g.id := by
      have h := List.find?_some hfind
      simpa using h
    simp only [processOptionGroup, hfind]
    by_cases hown : (idTruthy itemId || idTruthy sizeId) = true
    · rw [if_pos hown]
      have hmem : ∃ y, y ∈ (db.menu_option_groups.map (fun x =>
          if x.id == E.id then
            { x with
              name := g.name
              required := bit g.required
              allow_quantity := bit g.allow_quantity
              force_min := g.force_min
              force_max := g.force_max }
          else x)) ∧
          y.id = E.id ∧ y.gloriafood_id = g.id := by
        refine ⟨_, List.mem_map_of_mem _ hEmem, ?_, ?_⟩
        · simp
        · simp [hEext]
      have h2 := assocAppend_effect _ h1.wf
        { item_id := itemId, size_id := sizeId, option_group_id := E.id } g.id hmem
      refine GEffect_congr (GEffect_trans h1 h2) ?_ ?_
      · intro e
        rw [hown]
        simp
      · intro e
        rw [Bool.or_false]
    · rw [if_neg hown]
      have hof : (idTruthy itemId || idTruthy sizeId) = false := by
        simpa using hown
      refine GEffect_congr h1 ?_ ?_
      · intro e
        rw [hof]
        simp
      · intro e
        rfl
  | none =>
    have hNext : ∀ x ∈ db.menu_option_groups,
        ¬x.gloriafood_id =
          ({ id := db.nextOptionGroupId
             gloriafood_id := g.id
             name := g.name
             required := bit g.required
             allow_quantity := bit g.allow_quantity
             force_min := g.force_min
             force_max := g.force_max } : OptionGroupRow).gloriafood_id := by
      intro x hx
      have h := List.find?_eq_none.1 hfind x hx
      simpa using h
    have h3 := groupAppend_effect db hwf
      { id := db.nextOptionGroupId
        gloriafood_id := g.id
        name := g.name
        required := bit g.required
        allow_quantity := bit g.allow_quantity
        force_min := g.force_min
        force_max := g.force_max } rfl hNext
    simp only [processOptionGroup, hfind]
    by_cases hown : (idTruthy itemId || idTruthy sizeId) = true
    · rw [if_pos hown]
      have hmem : ∃ y, y ∈ (db.menu_option_groups ++
          [{ id := db.nextOptionGroupId
             gloriafood_id := g.id
             name := g.name
             required := bit g.required
             allow_quantity := bit g.allow_quantity
             force_min := g.force_min
             force_max := g.force_max }]) ∧
          y.id = db.nextOptionGroupId ∧ y.gloriafood_id = g.id := by
        refine ⟨_, List.mem_append.2 (Or.inr (List.mem_singleton.2 rfl)), rfl, rfl⟩
      have h4 := assocAppend_effect _ h3.wf
        { item_id := itemId, size_id := sizeId, option_group_id := db.nextOptionGroupId }
        g.id hmem
      refine GEffect_congr
        (optionsInsert_preserve_effect (GEffect_trans h3 h4) db.nextOptionGroupId
          (Nat.lt_succ_self _) (Nat.le_refl _) g.options 0 _) ?_ ?_
      · intro e
        rw [hown]
        simp
      · intro e
        rw [Bool.or_false]
    · rw [if_neg hown]
      have hof : (idTruthy itemId || idTruthy sizeId) = false := by
        simpa using hown
      refine GEffect_congr
        (optionsInsert_preserve_effect h3 db.nextOptionGroupId
          (Nat.lt_succ_self _) (Nat.le_refl _) g.options 0 _) ?_ ?_
      · intro e
        rw [hof]
        simp
      · intro e
        rfl

/-- Effect of an option-group loop with a fixed owner. -/
theorem processGroups_effect (itemId sizeId : Option Nat) :
    ∀ (gs : List MenuOptionGroup) (db : DB) (stats : Stats), MenuWF db →
      GEffect db (processGroups itemId sizeId gs (db, stats)).1
        (fun e => if (idTruthy itemId || idTruthy sizeId) = true then groupRefs e gs else 0)
        (fun e => mentionsIn e gs) := by
  intro gs
  induction gs with
  | nil =>
    intro db stats hwf
    refine GEffect_congr (GEffect_id db hwf) ?_ ?_
    · intro e
      simp [groupRefs]
    · intro e
      simp [mentionsIn]
  | cons g rest ih =>
    intro db stats hwf
    simp only [processGroups]
    have h1 := processOptionGroup_effect g itemId sizeId db stats hwf
    have h2 := ih (processOptionGroup g itemId sizeId db stats).1
      (processOptionGroup g itemId sizeId db stats).2 h1.wf
    refine GEffect_congr (GEffect_trans h1 h2) ?_ ?_
    · intro e
      by_cases hown : (idTruthy itemId || idTruthy sizeId) = true
      · rw [hown]
        by_cases hge : ((g.id : Nat) == e) = true
        · simp [hge, groupRefs, List.filter_cons]
          omega
        · simp [hge, groupRefs, List.filter_cons]
      · have hof : (idTruthy itemId || idTruthy sizeId) = false := by simpa using hown
        simp [hof]
    · intro e
      simp [mentionsIn]

/-- Effect of `processSize`: the size row is framed, its option groups are
processed with the new (truthy) size id as owner. -/
theorem processSize_effect (itemId : Nat) (size : MenuItemSize) (sortOrder : Nat)
    (db : DB) (stats : Stats) (hwf : MenuWF db) :
    GEffect db (processSize itemId size sortOrder db stats).1
      (fun e => sizeRefs e size) (fun e => sizeMentions e size) := by
  have hfr : GEffect db
      { db with
        menu_item_sizes := db.menu_item_sizes ++
          [{ id := db.nextSizeId
             item_id := itemId
             gloriafood_id := size.id
             name := size.name
             price := size.price
             is_default := bit size.default
             sort_order := sortOrder }]
        nextSizeId := db.nextSizeId + 1 }
      (fun _ => 0) (fun _ => false) :=
    GEffect_frame hwf rfl rfl rfl rfl (Nat.le_refl _) (Nat.le_succ _)
  cases hsg : size.groups with
  | none =>
    simp only [processSize, hsg]
    refine GEffect_congr hfr ?_ ?_
    · intro e
      simp [sizeRefs, hsg, groupRefs]
    · intro e
      simp [sizeMentions, hsg, mentionsIn]
  | some groups =>
    simp only [processSize, hsg]
    have hn0 : ((db.nextSizeId : Nat) == 0) = false := by
      refine beq_eq_false_iff_ne.2 ?_
      have := hwf.size_counter_pos
      omega
    have hown : (idTruthy (none : Option Nat) || idTruthy (some db.nextSizeId)) = true := by
      simp [idTruthy, hn0]
    have h2 := processGroups_effect none (some db.nextSizeId) groups _
      { stats with sizes := stats.sizes + 1 } hfr.wf
    refine GEffect_congr (GEffect_trans hfr h2) ?_ ?_
    · intro e
      rw [hown]
      simp [sizeRefs, hsg]
    · intro e
      simp [sizeMentions, hsg]

/-- Effect of the size loop of `processItem`. -/
theorem processSizes_effect (itemId : Nat) :
    ∀ (sizes : List MenuItemSize) (n : Nat) (db : DB) (stats : Stats), MenuWF db →
      GEffect db (processSizes itemId sizes n (db, stats)).1
        (fun e => (sizes.map (sizeRefs e)).sum)
        (fun e => sizes.any (sizeMentions e)) := by
  intro sizes
  induction sizes with
  | nil =>
    intro n db stats hwf
    refine GEffect_congr (GEffect_id db hwf) ?_ ?_
    · intro e; simp
    · intro e; simp
  | cons size rest ih =>
    intro n db stats hwf
    simp only [processSizes]
    have h1 := processSize_effect itemId size n db stats hwf
    have h2 := ih (n + 1) (processSize itemId size n db stats).1
      (processSize itemId size n db stats).2 h1.wf
    refine GEffect_congr (GEffect_trans h1 h2) ?_ ?_
    · intro e; simp
    · intro e; simp

/-- A sizes fold followed by a group fold under the same item owner (the shape
of the `processItem` tail). -/
theorem processSizesGroups_effect (itemId : Nat) (sizes : List MenuItemSize)
    (groups : List MenuOptionGroup) (db : DB) (stats : Stats) (hwf : MenuWF db) :
    GEffect db (processGroups (some itemId) none groups
        (processSizes itemId sizes 0 (db, stats))).1
      (fun e => (sizes.map (sizeRefs e)).sum +
        (if (idTruthy (some itemId) || idTruthy (none : Option Nat)) = true
          then groupRefs e groups else 0))
      (fun e => sizes.any (sizeMentions e) || mentionsIn e groups) := by
  have h1 := processSizes_effect itemId sizes 0 db stats hwf
  have h2 := processGroups_effect (some itemId) none groups
    (processSizes itemId sizes 0 (db, stats)).1
    (processSizes itemId sizes 0 (db, stats)).2 h1.wf
  exact GEffect_trans h1 h2

/-- Effect of `processItem`: the item row is framed, its sizes and then its
option groups are processed, the latter with the new (truthy) item id as
owner. -/
theorem processItem_effect (categoryId : Nat) (item : MenuItem) (sortOrder : Nat)
    (db : DB) (stats : Stats) (hwf : MenuWF db) :
    GEffect db (processItem categoryId item sortOrder db stats).1
      (fun e => itemRefs e item) (fun e => itemMentions e item) := by
  have hn0 : ((db.nextItemId : Nat) == 0) = false := by
    refine beq_eq_false_iff_ne.2 ?_
    have := hwf.item_counter_pos
    omega
  have hown : (idTruthy (some db.nextItemId) || idTruthy (none : Option Nat)) = true := by
    simp [idTruthy, hn0]
  have hfr : GEffect db
      { db with
        menu_items := db.menu_items ++
          [{ id := db.nextItemId
             category_id := categoryId
             gloriafood_id := item.id
             name := item.name
             description := strOrNull item.description
             price := item.price
             active := bit item.active
             sort_order := sortOrder
             kitchen_internal_name := strOrNull (item.extras.getD
               { menu_item_order_types := none
                 menu_item_kitchen_internal_name := none
                 menu_item_allergens_values := none
                 menu_item_nutritional_values := none }).menu_item_kitchen_internal_name
             order_types := (item.extras.getD
               { menu_item_order_types := none
                 menu_item_kitchen_internal_name := none
                 menu_item_allergens_values := none
                 menu_item_nutritional_values := none }).menu_item_order_types
             tags := item.tags
             allergens := (item.extras.getD
               { menu_item_order_types := none
                 menu_item_kitchen_internal_name := none
                 menu_item_allergens_values := none
                 menu_item_nutritional_values := none }).menu_item_allergens_values
             nutritional_values := (item.extras.getD
               { menu_item_order_types := none
                 menu_item_kitchen_internal_name := none
                 menu_item_allergens_values := none
                 menu_item_nutritional_values := none }).menu_item_nutritional_values }]
        nextItemId := db.nextItemId + 1 }
      (fun _ => 0) (fun _ => false) :=
    GEffect_frame hwf rfl rfl rfl rfl (Nat.le_succ _) (Nat.le_refl _)
  cases hsz : item.sizes with
  | none =>
    cases hgr : item.groups with
    | none =>
      simp only [processItem, hsz, hgr]
      refine GEffect_congr hfr ?_ ?_
      · intro e
        simp [itemRefs, hsz, hgr, groupRefs]
      · intro e
        simp [itemMentions, hsz, hgr, mentionsIn]
    | some groups =>
      simp only [processItem, hsz, hgr]
      have h2 := processGroups_effect (some db.nextItemId) none groups _
        { stats with items := stats.items + 1 } hfr.wf
      refine GEffect_congr (GEffect_trans hfr h2) ?_ ?_
      · intro e
        simp [itemRefs, hsz, hgr, hown]
      · intro e
        simp [itemMentions, hsz, hgr, mentionsIn]
  | some sizes =>
    cases hgr : item.groups with
    | none =>
      simp only [processItem, hsz, hgr]
      have h2 := processSizes_effect db.nextItemId sizes 0 _
        { stats with items := stats.items + 1 } hfr.wf
      refine GEffect_congr (GEffect_trans hfr h2) ?_ ?_
      · intro e
        simp [itemRefs, hsz, hgr, groupRefs]
      · intro e
        simp [itemMentions, hsz, hgr, mentionsIn]
    | some groups =>
      simp only [processItem, hsz, hgr]
      have h2 := processSizesGroups_effect db.nextItemId sizes groups _
        { stats with items := stats.items + 1 } hfr.wf
      refine GEffect_congr (GEffect_trans hfr h2) ?_ ?_
      · intro e
        simp [itemRefs, hsz, hgr, hown]
        omega
      · intro e
        simp [itemMentions, hsz, hgr]
        exact Bool.or_comm _ _

/-- Effect of the item loop of `processCategory`. -/
theorem processItems_effect (categoryId : Nat) :
    ∀ (items : List MenuItem) (n : Nat) (db : DB) (stats : Stats), MenuWF db →
      GEffect db (processItems categoryId items n (db, stats)).1
        (fun e => (items.map (itemRefs e)).sum)
        (fun e => items.any (itemMentions e)) := by
  intro items
  induction items with
  | nil =>
    intro n db stats hwf
    refine GEffect_congr (GEffect_id db hwf) ?_ ?_
    · intro e; simp
    · intro e; simp
  | cons item rest ih =>
    intro n db stats hwf
    simp only [processItems]
    have h1 := processItem_effect categoryId item n db stats hwf
    have h2 := ih (n + 1) (processItem categoryId item n db stats).1
      (processItem categoryId item n db stats).2 h1.wf
    refine GEffect_congr (GEffect_trans h1 h2) ?_ ?_
    · intro e; simp
    · intro e; simp

/-- Effect of `processCategory`: the category row is framed, its items are
processed, then any category-level groups are processed without an owner, so
those groups create no association rows (but do create or update group rows). -/
theorem processCategory_effect (menuId : Nat) (category : MenuCategory) (sortOrder : Nat)
    (db : DB) (stats : Stats) (hwf : MenuWF db) :
    GEffect db (processCategory menuId category sortOrder db stats).1
      (fun e => categoryRefs e category) (fun e => categoryMentions e category) := by
  have hfr : GEffect db
      { db with
        menu_categories := db.menu_categories ++
          [{ id := db.nextCategoryId
             menu_id := menuId
             gloriafood_id := category.id
             name := category.name
             description := strOrNull category.description
             active := bit category.active
             sort_order := sortOrder }]
        nextCategoryId := db.nextCategoryId + 1 }
      (fun _ => 0) (fun _ => false) :=
    GEffect_frame hwf rfl rfl rfl rfl (Nat.le_refl _) (Nat.le_refl _)
  have h1 := processItems_effect db.nextCategoryId category.items 0 _
    { stats with categories := stats.categories + 1 } hfr.wf
  have h01 := GEffect_trans hfr h1
  cases hgr : category.groups with
  | none =>
    simp only [processCategory, hgr]
    refine GEffect_congr h01 ?_ ?_
    · intro e
      simp [categoryRefs]
    · intro e
      simp [categoryMentions, hgr, mentionsIn]
  | some groups =>
    simp only [processCategory, hgr]
    have h2 := processGroups_effect none none groups
      (processItems db.nextCategoryId category.items 0
        ({ db with
          menu_categories := db.menu_categories ++
            [{ id := db.nextCategoryId
               menu_id := menuId
               gloriafood_id := category.id
               name := category.name
               description := strOrNull category.description
               active := bit category.active
               sort_order := sortOrder }]
          nextCategoryId := db.nextCategoryId + 1 },
         { stats with categories := stats.categories + 1 })).1
      (processItems db.nextCategoryId category.items 0
        ({ db with
          menu_categories := db.menu_categories ++
            [{ id := db.nextCategoryId
               menu_id := menuId
               gloriafood_id := category.id
               name := category.name
               description := strOrNull category.description
               active := bit category.active
               sort_order := sortOrder }]
          nextCategoryId := db.nextCategoryId + 1 },
         { stats with categories := stats.categories + 1 })).2 h01.wf
    refine GEffect_congr (GEffect_trans h01 h2) ?_ ?_
    · intro e
      simp [categoryRefs, idTruthy]
    · intro e
      simp [categoryMentions, hgr]

/-- Effect of the category loop of `syncMenu`: the whole rebuild is one
`GEffect` with the snapshot's reference counts and mentions. -/
theorem processCategories_effect (menuId : Nat) :
    ∀ (cats : List MenuCategory) (db : DB) (stats : Stats), MenuWF db →
      GEffect db (processCategories menuId cats (db, stats)).1
        (fun e => snapshotRefs e cats)
        (fun e => snapshotMentions e cats) := by
  intro cats
  induction cats with
  | nil =>
    intro db stats hwf
    refine GEffect_congr (GEffect_id db hwf) ?_ ?_
    · intro e; simp [snapshotRefs]
    · intro e; simp [snapshotMentions]
  | cons category rest ih =>
    intro db stats hwf
    simp only [processCategories]
    have h1 := processCategory_effect menuId category 0 db stats hwf
    have h2 := ih (processCategory menuId category 0 db stats).1
      (processCategory menuId category 0 db stats).2 h1.wf
    refine GEffect_congr (GEffect_trans h1 h2) ?_ ?_
    · intro e; simp [snapshotRefs]
    · intro e; simp [snapshotMentions]

/-- The menu find-or-create touches only `menus` and the menu counter, so it
is a clear step (group tables, association rows and rebuild counters framed). -/
theorem getOrCreateMenu_clearStep (db : DB) (menuData : GloriaFoodMenuResponse) :
    ClearStep db (getOrCreateMenu db menuData).2 := by
  cases hfind : db.menus.find? (fun m => m.gloriafood_id == menuData.id) with
  | none =>
    simp only [getOrCreateMenu, hfind]
    exact ⟨rfl, rfl, List.Sublist.refl _, rfl, rfl, rfl⟩
  | some ex =>
    simp only [getOrCreateMenu, hfind]
    exact ⟨rfl, rfl, List.Sublist.refl _, rfl, rfl, rfl⟩

/-- Menu well-formedness survives any clear step. -/
theorem MenuWF_of_clearStep {db db' : DB} (hwf : MenuWF db) (hcs : ClearStep db db') :
    MenuWF db' := by
  refine ⟨?_, ?_, ?_, ?_, ?_, ?_, ?_⟩
  · rw [hcs.item_counter_eq]; exact hwf.item_counter_pos
  · rw [hcs.size_counter_eq]; exact hwf.size_counter_pos
  · intro g hg
    rw [hcs.group_counter_eq]
    exact hwf.group_id_lt g (hcs.groups_eq ▸ hg)
  · rw [hcs.groups_eq]; exact hwf.group_ids_nodup
  · rw [hcs.groups_eq]; exact hwf.group_ext_unique
  · intro o ho
    rw [hcs.group_counter_eq]
    exact hwf.option_gid_lt o (hcs.options_eq ▸ ho)
  · intro a ha
    rw [hcs.group_counter_eq]
    exact hwf.assoc_gid_lt a (hcs.assocs_sub.subset ha)

/-- In a list of group rows with pairwise-distinct external ids, an external
id that occurs at all occurs in exactly one row. -/
theorem filter_ext_length_one :
    ∀ (l : List OptionGroupRow) (e : Nat),
      l.Pairwise (fun g1 g2 => g1.gloriafood_id ≠ g2.gloriafood_id) →
      l.any (fun g => g.gloriafood_id == e) = true →
      (l.filter (fun g => g.gloriafood_id == e)).length = 1 := by
  intro l
  induction l with
  | nil =>
    intro e _ h
    simp at h
  | cons g rest ih =>
    intro e hpw hany
    have hpw1 := (List.pairwise_cons.1 hpw).1
    have hpw2 := (List.pairwise_cons.1 hpw).2
    cases hge : (g.gloriafood_id == e) with
    | true =>
      have hge' : g.gloriafood_id = e := beq_iff_eq.1 hge
      have hrest : rest.filter (fun g2 => g2.gloriafood_id == e) = [] := by
        rw [List.filter_eq_nil_iff]
        intro g2 hg2
        have hne := hpw1 g2 hg2
        rw [hge'] at hne
        simp only [beq_iff_eq]
        exact fun hh => hne hh.symm
      simp [List.filter_cons, hge, hrest]
    | false =>
      have hany2 : rest.any (fun g2 => g2.gloriafood_id == e) = true := by
        simpa [List.any_cons, hge] using hany
      simp [List.filter_cons, hge, ih e hpw2 hany2]

/-- Under `MenuWF`, a present external id identifies exactly one group row. -/
theorem groupsFor_length_one {db : DB} (hwf : MenuWF db) {e : Nat}
    (h : hasGroup db e = true) : (groupsFor db e).length = 1 :=
  filter_ext_length_one db.menu_option_groups e hwf.group_ext_unique h

/-- C2. Shared option-group identity within one menu sync, over the full
`syncMenu` pipeline from a well-formed state with no stored association rows:
(1) every option-group external id mentioned anywhere in the snapshot is
stored in exactly one `menu_option_groups` row afterwards, however many items
and sizes reference it; (2) exactly one association row per referencing item
or size exists afterwards; (3) every pre-existing group row survives the sync
with its internal and external id, and its stored options are untouched;
(4) on a rebuild step that finds an existing group row, no option row is
written and the group table is only updated in place: the found row's mutable
fields (name, required, allow_quantity, force_min, force_max) are refreshed
from the snapshot and every other row is unchanged. -/
theorem claim2_shared_option_group_identity
    (st : AppState) (menuData : GloriaFoodMenuResponse)
    (hwf : MenuWF st.db) (hassoc : st.db.menu_item_option_groups = [])
    (e : Nat) :
    (snapshotMentions e menuData.categories = true →
      (groupsFor (syncMenu st menuData).2.db e).length = 1) ∧
    ((assocsFor (syncMenu st menuData).2.db e).length =
      snapshotRefs e menuData.categories) ∧
    (∀ g ∈ st.db.menu_option_groups,
      optionsOfGroupRow (syncMenu st menuData).2.db g.id =
        optionsOfGroupRow st.db g.id ∧
      ∃ g', g' ∈ (syncMenu st menuData).2.db.menu_option_groups ∧
        g'.id = g.id ∧ g'.gloriafood_id = g.gloriafood_id) ∧
    (∀ (group : MenuOptionGroup) (itemId sizeId : Option Nat) (db : DB)
      (stats : Stats) (e0 : OptionGroupRow),
      db.menu_option_groups.find? (fun g => g.gloriafood_id == group.id) = some e0 →
      (processOptionGroup group itemId sizeId db stats).1.menu_options =
        db.menu_options ∧
      (processOptionGroup group itemId sizeId db stats).1.menu_option_groups =
        db.menu_option_groups.map (fun g =>
          if g.id == e0.id then
            { g with
              name := group.name
              required := bit group.required
              allow_quantity := bit group.allow_quantity
              force_min := group.force_min
              force_max := group.force_max }
          else g)) := by
  have hcs12 : ClearStep st.db
      (clearMenuData (getOrCreateMenu st.db menuData).2
        (getOrCreateMenu st.db menuData).1) :=
    (getOrCreateMenu_clearStep st.db menuData).trans (clearMenuData_clearStep _ _)
  have hwf2 : MenuWF
      (clearMenuData (getOrCreateMenu st.db menuData).2
        (getOrCreateMenu st.db menuData).1) :=
    MenuWF_of_clearStep hwf hcs12
  have hassoc2 :
      (clearMenuData (getOrCreateMenu st.db menuData).2
        (getOrCreateMenu st.db menuData).1).menu_item_option_groups = [] := by
    have h := hcs12.assocs_sub
    rw [hassoc] at h
    exact List.sublist_nil.1 h
  have hGE := processCategories_effect (getOrCreateMenu st.db menuData).1
    menuData.categories _ Stats.zero hwf2
  refine ⟨?_, ?_, ?_, ?_⟩
  · intro hmens
    have hhas : hasGroup (processCategories (getOrCreateMenu st.db menuData).1
        menuData.categories
        (clearMenuData (getOrCreateMenu st.db menuData).2
          (getOrCreateMenu st.db menuData).1, Stats.zero)).1 e = true := by
      rw [hGE.hasGroup_eq]
      simp [hmens]
    exact groupsFor_length_one hGE.wf hhas
  · show (assocsFor (processCategories (getOrCreateMenu st.db menuData).1
        menuData.categories
        (clearMenuData (getOrCreateMenu st.db menuData).2
          (getOrCreateMenu st.db menuData).1, Stats.zero)).1 e).length =
      snapshotRefs e menuData.categories
    have h := hGE.assoc_count e
    have hlen0 : (assocsFor
        (clearMenuData (getOrCreateMenu st.db menuData).2
          (getOrCreateMenu st.db menuData).1) e).length = 0 := by
      unfold assocsFor
      rw [hassoc2]
      rfl
    simp only [] at h
    omega
  · intro g hg
    have hglt : g.id <
        (clearMenuData (getOrCreateMenu st.db menuData).2
          (getOrCreateMenu st.db menuData).1).nextOptionGroupId := by
      rw [hcs12.group_counter_eq]
      exact hwf.group_id_lt g hg
    constructor
    · have h1 := hGE.options_frame g.id hglt
      have h2 : optionsOfGroupRow
          (clearMenuData (getOrCreateMenu st.db menuData).2
            (getOrCreateMenu st.db menuData).1) g.id =
          optionsOfGroupRow st.db g.id := by
        unfold optionsOfGroupRow
        rw [hcs12.options_eq]
      exact h1.trans h2
    · have hg2 : g ∈ (clearMenuData (getOrCreateMenu st.db menuData).2
          (getOrCreateMenu st.db menuData).1).menu_option_groups := by
        rw [hcs12.groups_eq]
        exact hg
      obtain ⟨g', hg', hid, hext⟩ := hGE.id_preserved g hg2
      exact ⟨g', hg', hid, hext⟩
  · intro group itemId sizeId db stats e0 hfind
    constructor
    · simp only [processOptionGroup, hfind]
      cases hit : (idTruthy itemId || idTruthy sizeId) <;> simp [hit]
    · simp only [processOptionGroup, hfind]
      cases hit : (idTruthy itemId || idTruthy sizeId) <;> simp [hit]

/-- C2 witness: syncing the snapshot in which two items share option group 9
onto the previously synced worker state stores exactly one row for external
id 9 and exactly two association rows (one per referencing item). -/
theorem claim2_shared_option_group_identity_witness :
    MenuWF exMenuState.db ∧
    exMenuState.db.menu_item_option_groups = [] ∧
    snapshotMentions 9 exMenuShared.categories = true ∧
    (groupsFor (syncMenu exMenuState exMenuShared).2.db 9).length = 1 ∧
    (assocsFor (syncMenu exMenuState exMenuShared).2.db 9).length =
      snapshotRefs 9 exMenuShared.categories ∧
    snapshotRefs 9 exMenuShared.categories = 2 := by
  have hwf : MenuWF exMenuState.db :=
    ⟨by decide, by decide, by decide, by decide, by decide, by decide, by decide⟩
  refine ⟨hwf, rfl, by decide, ?_, ?_, by decide⟩
  · exact (claim2_shared_option_group_identity exMenuState exMenuShared hwf rfl 9).1
      (by decide)
  · exact (claim2_shared_option_group_identity exMenuState exMenuShared hwf rfl 9).2.1
